import Mathlib

set_option maxHeartbeats 1000000

/-!
Verification development for the SmartOCR batch-processing subsystem.

Shallow embedding of:
  * `src/services/ocr_engine.py`   (`PaddleOCRClient.ocr_file`, `_parse_result`)
  * `src/services/batch_processor.py`
      (`BatchWorker.process_single_file`, `BatchWorker.run`,
       `BatchWorker.save_results`, `BatchWorker.stop`, `BatchProcessor.stop`,
       `parse_markdown_table`, row-index mapping)

Modelling conventions:
  * Python/JSON dynamic values are the inductive `PyVal`; operations that can
    raise in Python (`x[k]`, `k in x`, iteration, `.get` on a non-dict,
    string concatenation with a non-string) return `Except String _`, the
    `String` being the exception rendered by `str(e)`.
  * The shared cancellation token (`threading.Event`) is monotone: it is
    modelled by `stopAt : Option Nat` over a logical clock that ticks once
    per `is_set()` read; the read at tick `t` returns true iff the token was
    set at some tick `s ≤ t`.
  * Wall-clock sleeps are recorded in traces; network and filesystem
    effects are decided by explicit environment records.
-/


/-!  Kernel-computable string helpers (the Lean core `String` functions use
byte-position loops that do not reduce; these equivalents work on the
character list and model the corresponding Python `str` methods). -/

/-- `s.lower()`. -/
def strToLower (s : String) : String := String.mk (s.data.map Char.toLower)

/-- `s[:n]`. -/
def strTake (s : String) (n : Nat) : String := String.mk (s.data.take n)

def isPyWs (c : Char) : Bool := c == ' ' || c == '\t' || c == '\n' || c == '\r'

/-- `s.strip()` (over the ASCII whitespace the sources produce). -/
def strTrim (s : String) : String :=
  String.mk (((s.data.dropWhile isPyWs).reverse.dropWhile isPyWs).reverse)

/-- `s.startswith(pre)`. -/
def strStartsWith (s pre : String) : Bool := pre.data.isPrefixOf s.data

/-- `s.endswith(suf)`. -/
def strEndsWith (s suf : String) : Bool := suf.data.reverse.isPrefixOf s.data.reverse

/-- `s.split(sep)` for a one-character separator. -/
def splitOnChar (sep : Char) : List Char → List (List Char)
  | [] => [[]]
  | c :: rest =>
    let r := splitOnChar sep rest
    if c == sep then [] :: r
    else
      match r with
      | h :: t => (c :: h) :: t
      | [] => [[c]]

def strSplitChar (s : String) (sep : Char) : List String :=
  (splitOnChar sep s.data).map String.mk

/-- `s.replace(c, "")` for a one-character needle. -/
def strRemoveChar (s : String) (c0 : Char) : String :=
  String.mk (s.data.filter (fun c => c != c0))

/-- `"\n".join(ls)` over genuine strings. -/
def strJoinNL : List String → String
  | [] => ""
  | [s] => s
  | s :: rest => s ++ "\n" ++ strJoinNL rest

/-- Dynamic Python/JSON value, as produced by `response.json()`. -/
inductive PyVal where
  | pynone
  | pybool (b : Bool)
  | pyint (n : Int)
  | pystr (s : String)
  | pylist (xs : List PyVal)
  | pydict (kvs : List (String × PyVal))
deriving Repr

-- Python `==` between dynamic values (`True == 1`; dict comparison is
-- modelled positionally, which suffices for the uses in the source:
-- membership tests and the `errorCode != 0` comparison).
mutual
def pyEq : PyVal → PyVal → Bool
  | .pynone, .pynone => true
  | .pybool a, .pybool b => a == b
  | .pybool a, .pyint n => (if a then (1 : Int) else 0) == n
  | .pyint n, .pybool a => n == (if a then (1 : Int) else 0)
  | .pyint a, .pyint b => a == b
  | .pystr a, .pystr b => a == b
  | .pylist a, .pylist b => pyEqList a b
  | .pydict a, .pydict b => pyEqDict a b
  | _, _ => false
def pyEqList : List PyVal → List PyVal → Bool
  | [], [] => true
  | a :: as, b :: bs => pyEq a b && pyEqList as bs
  | _, _ => false
def pyEqDict : List (String × PyVal) → List (String × PyVal) → Bool
  | [], [] => true
  | (k, a) :: as, (l, b) :: bs => k == l && pyEq a b && pyEqDict as bs
  | _, _ => false
end

/-- Python truthiness. -/
def pyTruthy : PyVal → Bool
  | .pynone => false
  | .pybool b => b
  | .pyint n => n != 0
  | .pystr s => s != ""
  | .pylist xs => !xs.isEmpty
  | .pydict kvs => !kvs.isEmpty

-- `str(v)`: rendering used only where the source truncates a raw value for
-- diagnostics; quoting of strings inside containers is abstracted away.
mutual
def pyStr : PyVal → String
  | .pynone => "None"
  | .pybool b => if b then "True" else "False"
  | .pyint n => toString n
  | .pystr s => s
  | .pylist xs => "[" ++ pyStrList xs ++ "]"
  | .pydict kvs => "\x7b" ++ pyStrDict kvs ++ "\x7d"
def pyStrList : List PyVal → String
  | [] => ""
  | [x] => pyStr x
  | x :: xs => pyStr x ++ ", " ++ pyStrList xs
def pyStrDict : List (String × PyVal) → String
  | [] => ""
  | [(k, v)] => k ++ ": " ++ pyStr v
  | (k, v) :: kvs => k ++ ": " ++ pyStr v ++ ", " ++ pyStrDict kvs
end

/-- `d.get(k, default)`: raises `AttributeError` on a non-dict. -/
def pyGetE (v : PyVal) (k : String) (d : PyVal) : Except String PyVal :=
  match v with
  | .pydict kvs => .ok ((kvs.lookup k).getD d)
  | _ => .error ("AttributeError: object has no attribute get (key " ++ k ++ ")")

/-- `k in v` for a string `k`: key test on dicts, `==`-membership on lists,
substring test on strings, `TypeError` otherwise. -/
def strContains (s sub : String) : Bool :=
  (List.range (s.toList.length + 1)).any (fun i => sub.toList.isPrefixOf (s.toList.drop i))

def pyInE (k : String) (v : PyVal) : Except String Bool :=
  match v with
  | .pydict kvs => .ok (kvs.any (fun kv => kv.1 == k))
  | .pylist xs => .ok (xs.any (fun x => pyEq x (.pystr k)))
  | .pystr s => .ok (strContains s k)
  | _ => .error "TypeError: argument of type is not iterable"

/-- `v[k]` for a string key: lookup on dicts (`KeyError` when absent),
`TypeError` on anything else. -/
def pyItemE (v : PyVal) (k : String) : Except String PyVal :=
  match v with
  | .pydict kvs =>
    match kvs.lookup k with
    | some x => .ok x
    | Option.none => .error ("KeyError: " ++ k)
  | _ => .error "TypeError: indices must be integers"

/-- `for x in v`: lists iterate elements, strings iterate characters,
dicts iterate keys, `TypeError` otherwise. -/
def pyIterE : PyVal → Except String (List PyVal)
  | .pylist xs => .ok xs
  | .pystr s => .ok (s.toList.map (fun c => .pystr (String.mk [c])))
  | .pydict kvs => .ok (kvs.map (fun kv => .pystr kv.1))
  | _ => .error "TypeError: object is not iterable"

/-- `list(v.keys())`: raises `AttributeError` on a non-dict. -/
def pyKeysE : PyVal → Except String (List String)
  | .pydict kvs => .ok (kvs.map Prod.fst)
  | _ => .error "AttributeError: object has no attribute keys"

/-- `"\n".join(xs)`: raises `TypeError` when some element is not a string. -/
def joinLinesE : List PyVal → Except String String
  | [] => .ok ""
  | [.pystr s] => .ok s
  | .pystr s :: xs => (joinLinesE xs).map (fun r => s ++ "\n" ++ r)
  | _ => .error "TypeError: sequence item expected str instance"

/-- One entry of `layout_data` built by `_parse_result`
(`label`/`content`/`bbox`/`order` dict; values are dynamic). -/
structure LayoutBlock where
  label : PyVal
  content : PyVal
  bbox : PyVal
  order : PyVal
deriving Repr

/-- A result-shaped (non-error) OCR response dictionary, covering both the
full dictionary of `ocr_engine.py` lines 214-220 and the empty-result
dictionary of lines 198-206.  `wordsResult` holds the `"words"` values of
the `words_result` entries (each entry is the singleton dict
`{"words": v}` in the source). -/
structure OcrSuccess where
  wordsResult : List PyVal
  markdown : String
  tablesHtml : List PyVal
  layoutData : List LayoutBlock
  rawResult : Option PyVal
  debugInfo : Option String
  rawResponse : Option String
deriving Repr

/-- Return value of `PaddleOCRClient.ocr_file`: either an error-shaped
dictionary `{"error": msg, "raw_response"?: raw}` or a result-shaped one. -/
inductive OcrResponse where
  | err (msg : String) (raw : Option String)
  | ok (r : OcrSuccess)
deriving Repr

/-- Intermediate accumulator of `_parse_result`
(`all_lines`, `markdown_text`, `tables_html`, `layout_data`). -/
structure ParseAcc where
  allLines : List PyVal
  markdownText : String
  tablesHtml : List PyVal
  layoutData : List LayoutBlock

/-- One iteration of the `layoutParsingResults` loop
(`ocr_engine.py` lines 130-167). -/
def parseLPRItem (acc : ParseAcc) (item : PyVal) : Except String ParseAcc := do
  -- markdown.text
  let acc ← do
    let b ← pyInE "markdown" item
    if b then
      let md ← pyItemE item "markdown"
      match md with
      | .pydict _ =>
        let mdText ← pyGetE md "text" (.pystr "")
        if pyTruthy mdText then
          match mdText with
          | .pystr s => pure { acc with markdownText := acc.markdownText ++ s ++ "\n\n" }
          | _ => Except.error "TypeError: can only concatenate str"
        else pure acc
      | _ => pure acc
    else pure acc
  -- table_res_list / pred_html
  let acc ← do
    let b ← pyInE "table_res_list" item
    if b then
      let trl ← pyItemE item "table_res_list"
      match trl with
      | .pylist tables =>
        tables.foldlM (fun a table => do
          let hb ← pyInE "pred_html" table
          if hb then
            let html ← pyItemE table "pred_html"
            pure { a with tablesHtml := a.tablesHtml ++ [html] }
          else pure a) acc
      | _ => pure acc
    else pure acc
  -- prunedResult
  let acc ← do
    let b ← pyInE "prunedResult" item
    if b then
      let pr ← pyItemE item "prunedResult"
      match pr with
      | .pystr s => pure { acc with allLines := acc.allLines ++ [.pystr s] }
      | .pydict _ =>
        let acc ← do
          let tb ← pyInE "text" pr
          if tb then
            let tv ← pyItemE pr "text"
            pure { acc with allLines := acc.allLines ++ [tv] }
          else pure acc
        let rb ← pyInE "rec_texts" pr
        if rb then
          let rv ← pyItemE pr "rec_texts"
          let elems ← pyIterE rv
          pure { acc with allLines := acc.allLines ++
            (elems.filter (fun t => match t with | .pystr _ => true | _ => false)) }
        else pure acc
      | _ => pure acc
    else pure acc
  -- parsing_res_list
  let b ← pyInE "parsing_res_list" item
  if b then
    let prl ← pyItemE item "parsing_res_list"
    let blocks ← pyIterE prl
    blocks.foldlM (fun a block => do
      let content ← pyGetE block "block_content" (.pystr "")
      let label ← pyGetE block "block_label" (.pystr "text")
      if pyTruthy content then
        let bbox ← pyGetE block "block_bbox" .pynone
        let ord ← pyGetE block "block_order" .pynone
        let a := { a with layoutData := a.layoutData ++
          [⟨label, content, bbox, ord⟩] }
        if !pyEq label (.pystr "table") then
          pure { a with allLines := a.allLines ++ [content] }
        else pure a
      else pure a) acc
  else pure acc

/-- One iteration of the `ocrResults` loop (`ocr_engine.py` lines 170-182). -/
def parseOcrItem (acc : ParseAcc) (ocrItem : PyVal) : Except String ParseAcc := do
  let acc ← do
    let b ← pyInE "prunedResult" ocrItem
    if b then
      let pr ← pyItemE ocrItem "prunedResult"
      match pr with
      | .pystr s => pure { acc with allLines := acc.allLines ++ [.pystr s] }
      | .pydict _ =>
        let rb ← pyInE "rec_texts" pr
        if rb then
          let rv ← pyItemE pr "rec_texts"
          let elems ← pyIterE rv
          pure { acc with allLines := acc.allLines ++
            (elems.filter (fun t => match t with | .pystr _ => true | _ => false)) }
        else pure acc
      | _ => pure acc
    else pure acc
  let rb ← pyInE "rec_texts" ocrItem
  if rb then
    let rv ← pyItemE ocrItem "rec_texts"
    match rv with
    | .pylist texts =>
      pure { acc with allLines := acc.allLines ++
        (texts.filter (fun t => match t with
          | .pystr s => strTrim s != ""
          | _ => false)) }
    | _ => pure acc
  else pure acc

/-- `PaddleOCRClient._parse_result` (`ocr_engine.py` lines 119-220).
The `modelName` parameter is unused, exactly as in the source. -/
def parse_result (jsonData : PyVal) (modelName : String) : Except String OcrSuccess := do
  let _ := modelName
  let res ← pyGetE jsonData "result" (.pydict [])
  let acc : ParseAcc := ⟨[], "", [], []⟩
  -- PP-StructureV3 format
  let acc ← do
    let b ← pyInE "layoutParsingResults" res
    if b then
      let lpr ← pyItemE res "layoutParsingResults"
      match lpr with
      | .pylist items => items.foldlM parseLPRItem acc
      | _ => pure acc
    else pure acc
  -- PP-OCRv5 format
  let acc ← do
    let b ← pyInE "ocrResults" res
    if b then
      let ors ← pyItemE res "ocrResults"
      match ors with
      | .pylist items => items.foldlM parseOcrItem acc
      | _ => pure acc
    else pure acc
  -- Fallback: rec_texts at result level
  let acc ← do
    if acc.allLines.isEmpty then
      let b ← pyInE "rec_texts" res
      if b then
        let rv ← pyItemE res "rec_texts"
        match rv with
        | .pylist texts =>
          pure { acc with allLines := acc.allLines ++
            (texts.filter (fun t => match t with
              | .pystr s => strTrim s != ""
              | _ => false)) }
        | _ => pure acc
      else pure acc
    else pure acc
  -- PaddleOCR-VL format
  let acc ← do
    if acc.allLines.isEmpty then
      let b ← pyInE "structureResults" res
      if b then
        let sr ← pyItemE res "structureResults"
        let items ← pyIterE sr
        items.foldlM (fun a item => do
          let rb ← pyInE "rec_texts" item
          if rb then
            let rv ← pyItemE item "rec_texts"
            match rv with
            | .pylist texts =>
              pure { a with allLines := a.allLines ++
                (texts.filter (fun t => match t with | .pystr _ => true | _ => false)) }
            | _ => pure a
          else pure a) acc
      else pure acc
    else pure acc
  -- Build result
  if acc.allLines.isEmpty && acc.markdownText == "" && acc.tablesHtml.isEmpty then
    let keys ← pyKeysE res
    pure { wordsResult := [], markdown := "", tablesHtml := [], layoutData := []
           rawResult := Option.none
           debugInfo := some ("未找到文字。结果键: " ++ pyStr (.pylist (keys.map .pystr)))
           rawResponse := some ((pyStr jsonData).take 500) }
  else
    let finalText ← do
      if acc.markdownText != "" then
        pure (strTrim acc.markdownText)
      else
        joinLinesE acc.allLines
    pure { wordsResult := if acc.allLines.isEmpty then [.pystr finalText] else acc.allLines
           markdown := acc.markdownText
           tablesHtml := acc.tablesHtml
           layoutData := acc.layoutData
           rawResult := some res
           debugInfo := Option.none
           rawResponse := Option.none }

/-!  The cancellation token and the OCR client (`ocr_engine.py`). -/

/-- One read of the shared `threading.Event`.  The logical clock `t` counts
`is_set()` reads; the token is set at tick `stopAt` (never, when `none`)
and, being monotone, reads true at every later tick. -/
def checkStop (stopAt : Option Nat) (t : Nat) : Bool :=
  match stopAt with
  | Option.none => false
  | some s => decide (s ≤ t)

theorem checkStop_mono {stopAt : Option Nat} {t u : Nat} (h : t ≤ u)
    (hs : checkStop stopAt t = true) : checkStop stopAt u = true := by
  cases stopAt with
  | none => simp [checkStop] at hs
  | some s =>
    simp only [checkStop, decide_eq_true_eq] at hs ⊢
    exact hs.trans h

/-- Outcome of one `self._session.post(...)` call, decided by the network
environment: a timeout, a connection error, some other exception, or an
HTTP response with a status code, a body text, and the outcome of
`response.json()`. -/
inductive AttemptOutcome where
  | timeout
  | connError (msg : String)
  | otherExn (msg : String)
  | httpResp (status : Nat) (text : String) (body : Except String PyVal)

/-- Network/configuration environment of one `ocr_file` call. -/
structure OcrEnv where
  /-- `config.get("current_model")`. -/
  currentModel : String
  /-- `config.get_model_config(m).get("url")`. -/
  urlFor : String → Option String
  /-- `config.get_model_config(m).get("token")`. -/
  tokenFor : String → Option String
  /-- outcome of the k-th POST attempt (k = 0, 1, 2). -/
  outcome : Nat → AttemptOutcome

/-- Observable side effects of one `ocr_file` call: number of POSTs made
and the sleeps (in seconds) between retry attempts. -/
structure OcrTrace where
  posts : Nat
  sleeps : List Nat
deriving Repr, DecidableEq

/-- Python truthiness of `model_override` / config strings
(`None` and `""` are falsy). -/
def optTruthy : Option String → Bool
  | Option.none => false
  | some s => s != ""

/-- `current_model = model_override if model_override else config.get("current_model")`. -/
def resolveModel (modelOverride : Option String) (cfgModel : String) : String :=
  match modelOverride with
  | some s => if s != "" then s else cfgModel
  | Option.none => cfgModel

/-- Extra payload parameters added when `optimize_for_small` is set
(`ocr_engine.py` lines 53-67); recorded for trace fidelity only. -/
def optimizeParams (optimizeForSmall : Bool) (model : String) : List (String × PyVal) :=
  if optimizeForSmall then
    if model == "PP-OCRv5" then
      [("textDetThresh", .pystr "0.15"), ("textDetBoxThresh", .pystr "0.3"),
       ("textDetUnclipRatio", .pystr "2.0"), ("textRecScoreThresh", .pystr "0.0")]
    else if model == "PP-StructureV3" then
      [("textDetThresh", .pystr "0.15"), ("textDetBoxThresh", .pystr "0.3"),
       ("textDetUnclipRatio", .pystr "2.0")]
    else if model == "PaddleOCR-VL" then
      [("temperature", .pystr "0.1")]
    else []
  else []

/-- The stop-error dictionary `{"error": "任务已被用户终止"}`. -/
def stopErrorResponse : OcrResponse := .err "任务已被用户终止" Option.none

/-- The `errorCode` / `errorMsg` probe on a 200 response
(`ocr_engine.py` lines 95-96), in Python exception semantics:
returns `some (msg, raw)` when an embedded non-zero error code is present. -/
def embeddedErrorE (j : PyVal) : Except String (Option (String × String)) := do
  let b ← pyInE "errorCode" j
  if b then
    let v ← pyItemE j "errorCode"
    if !pyEq v (.pyint 0) then
      let m ← pyGetE j "errorMsg" .pynone
      pure (some ("API错误: " ++ pyStr m, strTake (pyStr j) 500))
    else pure Option.none
  else pure Option.none

/-- The retry loop of `ocr_file` (`ocr_engine.py` lines 69-117).
`remaining` counts the attempts still allowed (3 at entry, so that the
source guard `attempt < max_retries` is `remaining > 1`); `t` is the
token clock; returns the response, the trace, and the clock at return. -/
def ocrAttemptLoop (env : OcrEnv) (stopAt : Option Nat) (model : String) :
    Nat → Nat → Option String → OcrTrace → OcrResponse × OcrTrace × Nat
  | 0, t, lastError, tr =>
    -- line 117: return {"error": last_error or "请求失败"}
    (.err (lastError.getD "请求失败") Option.none, tr, t)
  | remaining + 1, t, lastError, tr =>
    -- line 75: check stop_event before making the request
    if checkStop stopAt t then (stopErrorResponse, tr, t + 1)
    else
      let tr := { tr with posts := tr.posts + 1 }
      match env.outcome (tr.posts - 1) with
      | .httpResp status text body =>
        -- line 87: check stop after request
        if checkStop stopAt (t + 1) then (stopErrorResponse, tr, t + 2)
        else if status != 200 then
          (.err ("HTTP " ++ toString status) (some (strTake text 500)), tr, t + 2)
        else
          match body with
          | .error e =>
            -- response.json() raised: generic handler, lines 112-115
            if checkStop stopAt (t + 2) then (stopErrorResponse, tr, t + 3)
            else (.err ("异常: " ++ e) Option.none, tr, t + 3)
          | .ok j =>
            match embeddedErrorE j with
            | .error e =>
              if checkStop stopAt (t + 2) then (stopErrorResponse, tr, t + 3)
              else (.err ("异常: " ++ e) Option.none, tr, t + 3)
            | .ok (some (msg, raw)) => (.err msg (some raw), tr, t + 2)
            | .ok Option.none =>
              match parse_result j model with
              | .error e =>
                if checkStop stopAt (t + 2) then (stopErrorResponse, tr, t + 3)
                else (.err ("异常: " ++ e) Option.none, tr, t + 3)
              | .ok r => (.ok r, tr, t + 2)
      | .timeout =>
        -- lines 100-104 (note: no stop check in the Timeout handler)
        let lastError := some "请求超时，请检查网络或稍后重试"
        if remaining > 0 then
          ocrAttemptLoop env stopAt model remaining (t + 1) lastError
            { tr with sleeps := tr.sleeps ++ [1] }
        else (.err (lastError.getD "请求失败") Option.none, tr, t + 1)
      | .connError m =>
        -- lines 105-111
        if checkStop stopAt (t + 1) then (stopErrorResponse, tr, t + 2)
        else
          let lastError := some ("连接错误: " ++ strTake m 80)
          if remaining > 0 then
            ocrAttemptLoop env stopAt model remaining (t + 2) lastError
              { tr with sleeps := tr.sleeps ++ [1] }
          else (.err (lastError.getD "请求失败") Option.none, tr, t + 2)
      | .otherExn m =>
        -- lines 112-115
        if checkStop stopAt (t + 1) then (stopErrorResponse, tr, t + 2)
        else (.err ("异常: " ++ m) Option.none, tr, t + 2)

/-- `PaddleOCRClient.ocr_file` (`ocr_engine.py` lines 21-117), for calls
that pass a stop event (as the batch pipeline always does). -/
def ocr_file (env : OcrEnv) (modelOverride : Option String)
    (optimizeForSmall : Bool) (stopAt : Option Nat) (t : Nat) :
    OcrResponse × OcrTrace × Nat :=
  -- line 29: check if already stopped before starting
  if checkStop stopAt t then (stopErrorResponse, ⟨0, []⟩, t + 1)
  else
    let currentModel := resolveModel modelOverride env.currentModel
    let apiUrl := env.urlFor currentModel
    let token := env.tokenFor currentModel
    if !optTruthy apiUrl || !optTruthy token then
      (.err ("缺少 " ++ currentModel ++ " 的 URL 或 Token，请在设置中配置。") Option.none,
       ⟨0, []⟩, t + 1)
    else
      let _ := optimizeParams optimizeForSmall currentModel
      ocrAttemptLoop env stopAt currentModel 3 (t + 1) Option.none ⟨0, []⟩

/-!  Paths and the export step (`batch_processor.py`). -/

/-- `os.path.basename` (POSIX separators). -/
def basename (p : String) : String :=
  (strSplitChar p '/').getLastD p

/-- The root part of `os.path.splitext(name)` for a separator-free `name`:
split at the last dot, except that a run of leading dots is never a split
point (so `".bashrc"` has no extension). -/
def splitextStem (name : String) : String :=
  let cs := name.toList
  match (cs.reverse).findIdx? (fun c => c == '.') with
  | Option.none => name
  | some i =>
    let d := cs.length - 1 - i
    if (cs.take d).all (fun c => c == '.') then name
    else String.mk (cs.take d)

/-- `os.path.join` for the two-argument POSIX case used by `save_results`. -/
def pathJoin (dir name : String) : String :=
  if dir == "" then name
  else if strEndsWith dir "/" then dir ++ name
  else dir ++ "/" ++ name

/-- One line of `parse_markdown_table`'s loop (`batch_processor.py`
lines 84-103); the state is (tables, current_table, in_table). -/
def mdTableStep (st : List (List (List String)) × List (List String) × Bool)
    (rawLine : String) : List (List (List String)) × List (List String) × Bool :=
  let line := strTrim rawLine
  let (tables, current, inTable) := st
  if strStartsWith line "|" && strEndsWith line "|" then
    let stripped := strRemoveChar (strRemoveChar (strRemoveChar (strRemoveChar line '|') '-') ':') ' '
    if stripped == "" then st
    else
      let cells := (((strSplitChar line '|').drop 1).dropLast).map strTrim
      if !cells.isEmpty then (tables, current ++ [cells], true) else st
  else
    if inTable && !current.isEmpty then (tables ++ [current], [], false) else st

/-- `parse_markdown_table` (`batch_processor.py` lines 78-109): all markdown
tables as 2D cell lists, or `none` when there are none. -/
def parse_markdown_table (mdText : String) :
    Option (List (List (List String))) :=
  let st := (strSplitChar mdText '\n').foldl mdTableStep ([], [], false)
  let tables := if !st.2.1.isEmpty then st.1 ++ [st.2.1] else st.1
  if tables.isEmpty then Option.none else some tables

/-- Filesystem / optional-dependency environment of one `save_results` call.
`writeFail p` is the exception message when opening/writing `p` raises
(`none` = the write succeeds); `docxFail`/`xlsxFail`/`pdfFail` similarly
stand for an exception anywhere in the corresponding library `try` block
(document building, workbook/PDF rendering, and the final library save);
`parseHtmlTables` is the stdlib-`HTMLParser`-based `parse_html_tables`
collaborator (total: its body swallows every exception and returns `[]`). -/
structure FsEnv where
  writeFail : String → Option String
  hasDocx : Bool
  hasOpenpyxl : Bool
  hasReportlab : Bool
  docxFail : Option String
  xlsxFail : Option String
  pdfFail : Option String
  parseHtmlTables : String → List (List (List String))

/-- A single `with open(path, "w") ... write` under the outer
`except Exception` of `save_results` (lines 735-736): either the file is
written and the branch's message returned, or the exception message is
wrapped as `导出错误: str(e)[:50]`.  Returns (files written, message). -/
def wrOr (fs : FsEnv) (path okMsg : String) : List String × String :=
  match fs.writeFail path with
  | Option.none => ([path], okMsg)
  | some e => ([], "导出错误: " ++ strTake e 50)

/-- The basename stem of an input path (`base_name` on line 384). -/
def stemOf (filepath : String) : String := splitextStem (basename filepath)

/-- The output path `p(ext)` of line 387. -/
def outPath (outputDir filepath ext : String) : String :=
  pathJoin outputDir (stemOf filepath ++ "." ++ ext)

/-- The DOCX branch of `save_results` (lines 425-457). -/
def saveDocx (fs : FsEnv) (outputDir filepath : String) : List String × String :=
  if !fs.hasDocx then
    -- except ImportError (lines 450-453): fall back to markdown
    wrOr fs (outPath outputDir filepath "md") "导出失败: 需要安装python-docx (已保存为MD)"
  else
    match fs.docxFail with
    | some e => wrOr fs (outPath outputDir filepath "md") ("DOCX导出失败: " ++ strTake e 30)
    | Option.none =>
      ([outPath outputDir filepath "docx"], "已导出: " ++ stemOf filepath ++ ".docx")

/-- The XLSX branch of `save_results` (lines 459-525). -/
def saveXlsx (fs : FsEnv) (outputDir filepath markdownText : String)
    (tablesHtml : List PyVal) : List String × String :=
  if !fs.hasOpenpyxl then
    -- except ImportError (lines 517-523): fall back to CSV
    wrOr fs (outPath outputDir filepath "csv") "导出失败: 需要安装openpyxl (已保存为CSV)"
  else
    match fs.xlsxFail with
    | some e => ([], "Excel导出失败: " ++ strTake e 30)
    | Option.none =>
      if !tablesHtml.isEmpty then
        ([outPath outputDir filepath "xlsx"],
         "已导出: " ++ stemOf filepath ++ ".xlsx (" ++
           toString ((tablesHtml.map (fun h => match h with
             | .pystr s => (fs.parseHtmlTables s).length
             | _ => 0)).sum) ++ "个表格)")
      else if markdownText != "" then
        match parse_markdown_table markdownText with
        | some mdTables =>
          ([outPath outputDir filepath "xlsx"],
           "已导出: " ++ stemOf filepath ++ ".xlsx (" ++ toString mdTables.length ++ "个表格)")
        | Option.none =>
          ([outPath outputDir filepath "xlsx"], "已导出: " ++ stemOf filepath ++ ".xlsx")
      else ([outPath outputDir filepath "xlsx"], "已导出: " ++ stemOf filepath ++ ".xlsx")

/-- The HTML branch of `save_results` (lines 535-586). -/
def saveHtml (fs : FsEnv) (outputDir filepath : String)
    (tablesHtml : List PyVal) : List String × String :=
  if !tablesHtml.isEmpty then
    -- the f-string evaluates '<hr>'.join(tables_html) before the write;
    -- a non-string element raises TypeError into the outer handler
    if tablesHtml.all (fun h => match h with | .pystr _ => true | _ => false) then
      wrOr fs (outPath outputDir filepath "html") ("已导出: " ++ stemOf filepath ++ ".html")
    else ([], "导出错误: " ++ strTake "TypeError: sequence item expected str instance" 50)
  else
    wrOr fs (outPath outputDir filepath "html") ("已导出: " ++ stemOf filepath ++ ".html")

/-- The PDF branch of `save_results` (lines 600-705). -/
def savePdf (fs : FsEnv) (outputDir filepath : String) : List String × String :=
  if !fs.hasReportlab then
    -- except ImportError (lines 694-700): fall back to markdown
    wrOr fs (outPath outputDir filepath "md") "导出失败: 需要安装reportlab (已保存为MD)"
  else
    match fs.pdfFail with
    | some e => wrOr fs (outPath outputDir filepath "md") ("PDF导出失败: " ++ strTake e 30)
    | Option.none =>
      ([outPath outputDir filepath "pdf"], "已导出: " ++ stemOf filepath ++ ".pdf")

/-- `BatchWorker.save_results` (`batch_processor.py` lines 383-736).
Returns the list of output files written and the returned status string.
File contents are not modelled; which file is written, under which name,
and which message is returned are.  The source's local `fmt` and `p`
bindings appear inline as `strToLower exportFmt` and `outPath`, and the
four heavyweight branches as the `save*` helpers above. -/
def save_results (fs : FsEnv) (outputDir exportFmt : String)
    (filepath text markdownText : String) (tablesHtml : List PyVal)
    (layoutData : List LayoutBlock) (rawResult : PyVal) : List String × String :=
  if strToLower exportFmt == "txt" then
    wrOr fs (outPath outputDir filepath "txt") ("已导出: " ++ stemOf filepath ++ ".txt")
  else if strToLower exportFmt == "json" then
    wrOr fs (outPath outputDir filepath "json") ("已导出: " ++ stemOf filepath ++ ".json")
  else if strContains (strToLower exportFmt) "csv" then
    wrOr fs (outPath outputDir filepath "csv") ("已导出: " ++ stemOf filepath ++ ".csv")
  else if strContains (strToLower exportFmt) "可搜索pdf" then
    wrOr fs (outPath outputDir filepath "txt")
      ("已导出: " ++ stemOf filepath ++ ".txt (可搜索PDF开发中)")
  else if strContains (strToLower exportFmt) "带标注" then
    wrOr fs (outPath outputDir filepath "txt")
      ("已导出: " ++ stemOf filepath ++ ".txt (标注图片开发中)")
  else if strContains (strToLower exportFmt) "docx" || strContains (strToLower exportFmt) "word" then
    saveDocx fs outputDir filepath
  else if strContains (strToLower exportFmt) "xlsx" || strContains (strToLower exportFmt) "excel" then
    saveXlsx fs outputDir filepath markdownText tablesHtml
  else if strContains (strToLower exportFmt) "markdown" || strContains (strToLower exportFmt) "md" then
    wrOr fs (outPath outputDir filepath "md") ("已导出: " ++ stemOf filepath ++ ".md")
  else if strContains (strToLower exportFmt) "html" then
    saveHtml fs outputDir filepath tablesHtml
  else if strContains (strToLower exportFmt) "版面树" || strContains (strToLower exportFmt) "layout" then
    wrOr fs (outPath outputDir filepath "json") ("已导出: " ++ stemOf filepath ++ ".json")
  else if strContains (strToLower exportFmt) "pdf" && !strContains (strToLower exportFmt) "可搜索" then
    savePdf fs outputDir filepath
  else if strContains (strToLower exportFmt) "latex" || strContains (strToLower exportFmt) "公式" then
    wrOr fs (outPath outputDir filepath "tex") ("已导出: " ++ stemOf filepath ++ ".tex")
  else if strContains (strToLower exportFmt) "语义" || strContains (strToLower exportFmt) "kvp" then
    wrOr fs (outPath outputDir filepath "json") ("已导出: " ++ stemOf filepath ++ ".json")
  else if strContains (strToLower exportFmt) "叙述" || strContains (strToLower exportFmt) "narrative" then
    wrOr fs (outPath outputDir filepath "txt") ("已导出: " ++ stemOf filepath ++ ".txt")
  else if strContains (strToLower exportFmt) "代码" || strContains (strToLower exportFmt) "code" then
    wrOr fs (outPath outputDir filepath "py") ("已导出: " ++ stemOf filepath ++ ".py")
  else
    wrOr fs (outPath outputDir filepath "txt") ("已导出: " ++ stemOf filepath ++ ".txt")

/-!  The Batch Worker (`batch_processor.py`). -/

/-- The parameters a `BatchWorker` is constructed with
(`BatchWorker.__init__`, lines 130-144); `rowIndices` is the value of
`self.row_indices` after `__init__` ran. -/
structure WorkerCfg where
  mode : String
  files : List String
  modelOverride : Option String
  outputDir : String
  exportFmt : String
  maxWorkers : Nat
  rowIndices : List Nat

/-- `self.row_indices = row_indices if row_indices else list(range(len(files)))`
(line 140; `None` and `[]` are falsy). -/
def initRowIndices (files : List String) (rowIndices : Option (List Nat)) : List Nat :=
  match rowIndices with
  | some l => if !l.isEmpty then l else List.range files.length
  | Option.none => List.range files.length

/-- `self.row_indices[index] if index < len(self.row_indices) else index`
(lines 161, 291, 327, 359). -/
def displaySlot (rowIndices : List Nat) (index : Nat) : Nat :=
  if h : index < rowIndices.length then rowIndices[index] else index

/-- A Qt signal emission of `WorkerSignals` (lines 120-126). -/
inductive Ev where
  | statusUpdate (row : Nat) (s : String)
  | progressUpdate (row cur tot : Nat)
  | resultUpdate (row : Nat) (msg : String)
  | finishedSig
  | stoppedSig
deriving Repr, DecidableEq

/-- Environment of one `process_single_file` task: where on the shared
token's clock this thread starts observing it, the outcome of reading the
input file, and the network and filesystem environments. -/
structure PipeEnv where
  stopAt : Option Nat
  readFile : Except String String
  ocr : OcrEnv
  fs : FsEnv

/-- Output of one `process_single_file` task.  Each emitted signal is
paired with the value of the token clock at emission; `tEnd` is the clock
at return; the `ret*` fields are the returned 4-tuple
`(index, row_index, status, result)`. -/
structure PipeOut where
  events : List (Nat × Ev)
  retIndex : Nat
  retRow : Nat
  retStatus : Option String
  retResult : String
  tEnd : Nat
  ocrTrace : Option OcrTrace

/-- Document extensions (`batch_processor.py` line 182). -/
def documentExts : List String := [".pdf", ".xps", ".epub", ".mobi", ".fb2", ".cbz"]

/-- The extension part of `os.path.splitext` for the classification on
line 181 (everything from the last dot of the basename on, or `""`). -/
def splitextExt (p : String) : String :=
  let name := basename p
  let cs := name.toList
  match (cs.reverse).findIdx? (fun c => c == '.') with
  | Option.none => ""
  | some i =>
    let d := cs.length - 1 - i
    if (cs.take d).all (fun c => c == '.') then "" else String.mk (cs.drop d)

/-- The `except Exception` handler of `process_single_file`
(lines 254-261), entered with the pending event list, the clock, and
`str(e)`. -/
def pipeExcept (stopAt : Option Nat) (evs : List (Nat × Ev))
    (index rowIndex : Nat) (e : String) (t : Nat) : PipeOut :=
  if checkStop stopAt t then
    ⟨evs, index, rowIndex, Option.none, "用户已终止任务", t + 1, Option.none⟩
  else
    ⟨evs ++ [(t + 1, .statusUpdate rowIndex "错误"),
             (t + 1, .progressUpdate rowIndex 100 100),
             (t + 1, .resultUpdate rowIndex (strTake e 100))],
     index, rowIndex, some "错误", e, t + 1, Option.none⟩

/-- Lines 202-252 of `process_single_file`: the branch on the API
response, entered after the post-API stop check with the token clock at
`t6` (the next unread tick) and the pending `处理中` events `startEvs`. -/
def pipeResultPhase (cfg : WorkerCfg) (env : PipeEnv) (index rowIndex : Nat)
    (startEvs : List (Nat × Ev)) (fp : String) (brq : OcrTrace)
    (res : OcrResponse) (t6 : Nat) : PipeOut :=
  match res with
  | .err errMsg raw =>
    -- line 206: double-check stop_event before updating UI
    if checkStop env.stopAt t6 then
      ⟨startEvs, index, rowIndex, Option.none, "用户已终止任务", t6 + 1, some brq⟩
    else
      ⟨startEvs ++
        [(t6 + 1, .statusUpdate rowIndex "失败"),
         (t6 + 1, .progressUpdate rowIndex 100 100),
         (t6 + 1, .resultUpdate rowIndex (match raw with
           | some r => errMsg ++ "\n" ++ strTake r 200 ++ "..."
           | Option.none => errMsg))],
       index, rowIndex, some "失败",
       (match raw with
        | some r => errMsg ++ "\n" ++ strTake r 200 ++ "..."
        | Option.none => errMsg), t6 + 1, some brq⟩
  | .ok r =>
    -- lines 216-252
    if (if !(r.wordsResult.filterMap (fun v => match v with
          | .pystr s => some s
          | _ => Option.none)).isEmpty then
        strJoinNL (r.wordsResult.filterMap (fun v => match v with
          | .pystr s => some s
          | _ => Option.none))
      else r.markdown) != "" || !r.tablesHtml.isEmpty then
      -- line 235: check stop_event before updating UI (after save_results)
      if checkStop env.stopAt t6 then
        ⟨startEvs, index, rowIndex, Option.none, "用户已终止任务", t6 + 1, some brq⟩
      else
        ⟨startEvs ++
          [(t6 + 1, .statusUpdate rowIndex "成功"),
           (t6 + 1, .progressUpdate rowIndex 100 100),
           (t6 + 1, .resultUpdate rowIndex
             (save_results env.fs cfg.outputDir cfg.exportFmt fp
               (if !(r.wordsResult.filterMap (fun v => match v with
                     | .pystr s => some s
                     | _ => Option.none)).isEmpty then
                  strJoinNL (r.wordsResult.filterMap (fun v => match v with
                    | .pystr s => some s
                    | _ => Option.none))
                else r.markdown)
               r.markdown r.tablesHtml r.layoutData (r.rawResult.getD (.pydict []))).2)],
         index, rowIndex, some "成功",
         (save_results env.fs cfg.outputDir cfg.exportFmt fp
           (if !(r.wordsResult.filterMap (fun v => match v with
                 | .pystr s => some s
                 | _ => Option.none)).isEmpty then
              strJoinNL (r.wordsResult.filterMap (fun v => match v with
                | .pystr s => some s
                | _ => Option.none))
            else r.markdown)
           r.markdown r.tablesHtml r.layoutData (r.rawResult.getD (.pydict []))).2,
         t6 + 1, some brq⟩
    else
      -- line 247: check stop_event before updating UI
      if checkStop env.stopAt t6 then
        ⟨startEvs, index, rowIndex, Option.none, "用户已终止任务", t6 + 1, some brq⟩
      else
        ⟨startEvs ++
          [(t6 + 1, .statusUpdate rowIndex "无内容"),
           (t6 + 1, .progressUpdate rowIndex 100 100),
           (t6 + 1, .resultUpdate rowIndex "未识别到文字")],
         index, rowIndex, some "无内容", "未识别到文字", t6 + 1, some brq⟩

/-- `BatchWorker.process_single_file` (`batch_processor.py` lines 150-261),
starting with its thread's view of the token clock at `t0`.  The source's
local `full_text` expression appears inline inside `pipeResultPhase`. -/
def process_single_file (cfg : WorkerCfg) (env : PipeEnv)
    (index : Nat) (filepath : String) (t0 : Nat) : PipeOut :=
  -- line 164: check if stopped before starting
  if checkStop env.stopAt t0 then
    ⟨[], index, displaySlot cfg.rowIndices index, Option.none, "用户已终止任务",
     t0 + 1, Option.none⟩
  else
    -- line 170: only update UI if not stopped
    -- line 175: check before reading file
    if checkStop env.stopAt (t0 + 2) then
      ⟨(if checkStop env.stopAt (t0 + 1) then []
        else [(t0 + 2, Ev.statusUpdate (displaySlot cfg.rowIndices index) "处理中..."),
              (t0 + 2, Ev.progressUpdate (displaySlot cfg.rowIndices index) 50 100)]),
       index, displaySlot cfg.rowIndices index, Option.none, "用户已终止任务",
       t0 + 3, Option.none⟩
    else
      match env.readFile with
      | .error e =>
        pipeExcept env.stopAt
          (if checkStop env.stopAt (t0 + 1) then []
           else [(t0 + 2, Ev.statusUpdate (displaySlot cfg.rowIndices index) "处理中..."),
                 (t0 + 2, Ev.progressUpdate (displaySlot cfg.rowIndices index) 50 100)])
          index (displaySlot cfg.rowIndices index) e (t0 + 3)
      | .ok _fileBytes =>
        -- line 181-183: extension-based classification (observable only
        -- through the fileType sent, which the network environment absorbs)
        -- line 186: check before API call
        if checkStop env.stopAt (t0 + 3) then
          ⟨(if checkStop env.stopAt (t0 + 1) then []
            else [(t0 + 2, Ev.statusUpdate (displaySlot cfg.rowIndices index) "处理中..."),
                  (t0 + 2, Ev.progressUpdate (displaySlot cfg.rowIndices index) 50 100)]),
           index, displaySlot cfg.rowIndices index, Option.none, "用户已终止任务",
           t0 + 4, Option.none⟩
        else
          match ocr_file env.ocr cfg.modelOverride false env.stopAt (t0 + 4) with
          | (res, brq, t5) =>
            -- line 198: after the API call returns, check stop_event first
            if checkStop env.stopAt t5 then
              ⟨(if checkStop env.stopAt (t0 + 1) then []
                else [(t0 + 2, Ev.statusUpdate (displaySlot cfg.rowIndices index) "处理中..."),
                      (t0 + 2, Ev.progressUpdate (displaySlot cfg.rowIndices index) 50 100)]),
               index, displaySlot cfg.rowIndices index, Option.none, "用户已终止任务",
               t5 + 1, some brq⟩
            else
              pipeResultPhase cfg env index (displaySlot cfg.rowIndices index)
                (if checkStop env.stopAt (t0 + 1) then []
                 else [(t0 + 2, Ev.statusUpdate (displaySlot cfg.rowIndices index) "处理中..."),
                       (t0 + 2, Ev.progressUpdate (displaySlot cfg.rowIndices index) 50 100)])
                filepath brq res (t5 + 1)

/-- Environment of one `BatchWorker.run`: the token's set-point on the
coordinator thread's read clock, the tick by which each submitted future
has completed, whether `os.makedirs` raises (the fatal-orchestration-error
case caught on line 363), and each item's pipeline environment. -/
structure RunEnv where
  stopAt : Option Nat
  doneTime : Nat → Nat
  mkdirFail : Bool
  pipeEnv : Nat → PipeEnv

/-- Output of one `BatchWorker.run`: the events emitted by the
coordinating thread itself (in order), the submitted item indices, the
output of each submitted item's concurrently-running pipeline, the final
`was_stopped` flag, and the coordinator's clock at exit. -/
structure RunOut where
  coordEvents : List Ev
  submitted : List Nat
  items : List (Nat × PipeOut)
  wasStopped : Bool
  tFinal : Nat

/-- The first inter-submission delay (lines 304-307): up to 20 sleeps of
0.1s, each preceded by a stop check; returns the clock after the loop. -/
def delayOne (stopAt : Option Nat) : Nat → Nat → Nat
  | 0, t => t
  | k + 1, t => if checkStop stopAt t then t + 1 else delayOne stopAt k (t + 1)

/-- The second delay (lines 315-320): up to 30 iterations, each checking
the stop event, then whether the previous future is done, then sleeping. -/
def delayTwo (stopAt : Option Nat) (doneT : Nat) : Nat → Nat → Nat
  | 0, t => t
  | k + 1, t =>
    if checkStop stopAt t then t + 1
    else if doneT ≤ t then t + 1
    else delayTwo stopAt doneT k (t + 1)

/-- Lines 300-320: the delay between the submission of item `i` and the
next submission (executed when `i` is not the last item). -/
def interDelay (env : RunEnv) (i : Nat) (t : Nat) : Nat :=
  let t1 := delayOne env.stopAt 20 t
  -- line 311: if not self._stop_event.is_set()
  if checkStop env.stopAt t1 then t1 + 1
  else if env.doneTime i ≤ t1 + 1 then t1 + 1
  else delayTwo env.stopAt (env.doneTime i) 30 (t1 + 1)

/-- Lines 290-293: mark the not-yet-submitted tail `i, i+1, ...` -/
def markStopped (cfg : WorkerCfg) (i count : Nat) : List Ev :=
  (List.range count).flatMap (fun k =>
    [Ev.statusUpdate (displaySlot cfg.rowIndices (i + k)) "已终止",
     Ev.resultUpdate (displaySlot cfg.rowIndices (i + k)) "用户已终止任务"])

/-- The submission loop of `run` (lines 286-320).  Returns the events the
coordinator emitted, the submitted indices, the clock after the loop, and
whether `was_stopped` was set inside the loop. -/
def submitLoop (env : RunEnv) (cfg : WorkerCfg) :
    List String → Nat → Nat → List Ev × List Nat × Nat × Bool
  | [], _, t => ([], [], t, false)
  | _fp :: rest, i, t =>
    -- line 288: check stop before submitting new task
    if checkStop env.stopAt t then
      (markStopped cfg i (rest.length + 1), [], t + 1, true)
    else
      let t1 := t + 1
      let t2 := if rest.isEmpty then t1 else interDelay env i t1
      let (evs, sub, t3, ws) := submitLoop env cfg rest (i + 1) t2
      (evs, i :: sub, t3, ws)

/-- The drain loop of `run` (lines 335-351): repeatedly poll the pending
futures, dropping completed ones, until none remain or the stop event is
observed; each iteration reads the stop event once and sleeps 0.1s.
`fuel` bounds the iterations; `run` passes enough for every pending
future's completion tick. -/
def drain (stopAt : Option Nat) (doneTime : Nat → Nat) :
    Nat → List Nat → Nat → List Nat × Nat
  | 0, pending, t => (pending, t)
  | fuel + 1, pending, t =>
    if pending.isEmpty then (pending, t)
    else if checkStop stopAt t then (pending, t + 1)
    else drain stopAt doneTime fuel
      (pending.filter (fun i => !decide (doneTime i ≤ t))) (t + 1)

/-- The `finally` block of `run` (lines 367-376): tear down the executor
and emit exactly one terminal signal. -/
def finallyStep (stopAt : Option Nat) (evs : List Ev) (sub : List Nat)
    (items : List (Nat × PipeOut)) (ws : Bool) (t : Nat) : RunOut :=
  if ws then ⟨evs ++ [.stoppedSig], sub, items, ws, t⟩
  else if checkStop stopAt t then ⟨evs ++ [.stoppedSig], sub, items, ws, t + 1⟩
  else ⟨evs ++ [.finishedSig], sub, items, ws, t + 1⟩

/-- `BatchWorker.run` (`batch_processor.py` lines 263-376).  The submitted
items' pipelines run concurrently on their own clocks; their outputs are
collected in `items`, their events are not interleaved into
`coordEvents`. -/
def runWorker (env : RunEnv) (cfg : WorkerCfg) : RunOut :=
  if env.mkdirFail then
    -- lines 363-366: fatal batch error, logged; fall through to finally
    finallyStep env.stopAt [] [] [] false 0
  else
    let (sEvs, sub, t1, ws) := submitLoop env cfg cfg.files 0 0
    let items := sub.map (fun i =>
      (i, process_single_file cfg (env.pipeEnv i) i ((cfg.files.drop i).headD "") 0))
    -- line 323: if stop was triggered during submission
    if checkStop env.stopAt t1 then
      -- lines 324-331: was_stopped = True, no per-item emission, early return
      finallyStep env.stopAt sEvs sub items true (t1 + 1)
    else
      let fuel := (sub.map env.doneTime).foldr max 0 + 2
      let (pending, t2) := drain env.stopAt env.doneTime fuel sub (t1 + 1)
      -- line 354: if stop was triggered while waiting
      if checkStop env.stopAt t2 then
        let lateEvs := pending.flatMap (fun i =>
          [Ev.statusUpdate (displaySlot cfg.rowIndices i) "已终止",
           Ev.resultUpdate (displaySlot cfg.rowIndices i) "用户已终止任务"])
        finallyStep env.stopAt (sEvs ++ lateEvs) sub items true (t2 + 1)
      else
        finallyStep env.stopAt sEvs sub items ws (t2 + 1)

/-- `BatchWorker.stop` (lines 146-148): `self._stop_event.set()` on the
token state. -/
def workerStop (_tok : Bool) : Bool := true

/-- `BatchProcessor.stop` (lines 756-758) acting on the held worker's
token state (`none` = no worker is currently held). -/
def processorStop : Option Bool → Option Bool
  | Option.none => Option.none
  | some tok => some (workerStop tok)

/-!  Classification helpers for emitted events. -/

/-- A terminal per-item status signal (`成功`, `无内容`, `失败`, `错误`). -/
def isTerminalStatus : Ev → Bool
  | .statusUpdate _ s => s == "成功" || s == "无内容" || s == "失败" || s == "错误"
  | _ => false

/-- A `result_update` signal. -/
def isResultUpdate : Ev → Bool
  | .resultUpdate _ _ => true
  | _ => false

/-- A job-terminal signal (`finished` or `stopped`). -/
def isJobTerminal : Ev → Bool
  | .finishedSig => true
  | .stoppedSig => true
  | _ => false

/-- Total number of job-terminal signals emitted during a run, by the
coordinator and by every submitted item's pipeline together. -/
def jobTerminalCount (o : RunOut) : Nat :=
  (o.coordEvents.filter isJobTerminal).length +
  (o.items.map (fun ip => (ip.2.events.filter (fun p => isJobTerminal p.2)).length)).sum

/-!  C8: stop() idempotence. -/

/-- C8: calling `stop()` twice has the same effect as calling it once: on
the Coordinator (`BatchProcessor.stop`) it is idempotent and a no-op when
no worker is held, and on the Worker token (`BatchWorker.stop`, i.e.
`Event.set`) it is idempotent and never unsets a set token. -/
theorem C8_stop_idempotent :
    (∀ s : Option Bool, processorStop (processorStop s) = processorStop s) ∧
    processorStop Option.none = Option.none ∧
    (∀ b : Bool, workerStop (workerStop b) = workerStop b) ∧
    workerStop true = true := by
  refine ⟨fun s => ?_, rfl, fun b => rfl, rfl⟩
  cases s <;> rfl

/-!  C10: the display-slot mapping. -/

/-- C10: the display slot of internal index `i` is total and well-defined:
identity when `row_indices` is absent or empty, `row_indices[i]` when
provided and in range, and `i` when `row_indices` is too short (the source
guard `index < len(self.row_indices)` prevents any out-of-bounds access). -/
theorem C10_display_slot_total :
    (∀ (files : List String) (i : Nat),
        displaySlot (initRowIndices files Option.none) i = i) ∧
    (∀ (files : List String) (i : Nat),
        displaySlot (initRowIndices files (some [])) i = i) ∧
    (∀ (files : List String) (l : List Nat) (i : Nat) (h : i < l.length),
        l ≠ [] → displaySlot (initRowIndices files (some l)) i = l.get ⟨i, h⟩) ∧
    (∀ (files : List String) (l : List Nat) (i : Nat),
        l.length ≤ i → l ≠ [] → displaySlot (initRowIndices files (some l)) i = i) := by
  refine ⟨?_, ?_, ?_, ?_⟩
  · intro files i
    simp only [initRowIndices, displaySlot]
    split
    · simpa using List.getElem_range _
    · rfl
  · intro files i
    simp only [initRowIndices, List.isEmpty_nil, Bool.not_true, Bool.false_eq_true,
      if_false, displaySlot]
    split
    · simpa using List.getElem_range _
    · rfl
  · intro files l i h hne
    have hl : l.isEmpty = false := by simpa [List.isEmpty_iff] using hne
    simp only [initRowIndices, hl, Bool.not_false, if_true, displaySlot]
    simp [h, List.get_eq_getElem]
  · intro files l i h hne
    have hl : l.isEmpty = false := by simpa [List.isEmpty_iff] using hne
    simp only [initRowIndices, hl, Bool.not_false, if_true, displaySlot]
    have : ¬ i < l.length := by omega
    simp [this]

/-- C10 witness: concrete instantiation of every conjunct. -/
theorem C10_display_slot_total_witness :
    displaySlot (initRowIndices ["a", "b"] Option.none) 1 = 1 ∧
    displaySlot (initRowIndices ["a", "b"] (some [])) 5 = 5 ∧
    displaySlot (initRowIndices ["a", "b"] (some [7, 9])) 1 = 9 ∧
    displaySlot (initRowIndices ["a", "b", "c"] (some [7])) 2 = 2 := by
  refine ⟨C10_display_slot_total.1 ["a", "b"] 1,
          C10_display_slot_total.2.1 ["a", "b"] 5, ?_, ?_⟩
  · have := C10_display_slot_total.2.2.1 ["a", "b"] [7, 9] 1 (by decide) (by decide)
    simpa using this
  · exact C10_display_slot_total.2.2.2 ["a", "b", "c"] [7] 2 (by decide) (by decide)


/-!  C7: output-path uniqueness. -/

/-- A benign filesystem environment: every write succeeds, every optional
dependency is available. -/
def fsAllOk : FsEnv :=
  ⟨fun _ => Option.none, true, true, true, Option.none, Option.none, Option.none,
   fun _ => []⟩

theorem wrOr_mem {fs : FsEnv} {path okMsg q : String}
    (h : q ∈ (wrOr fs path okMsg).1) : q = path := by
  unfold wrOr at h
  split at h <;> simp_all

theorem saveDocx_shape {fs : FsEnv} {od fp q : String}
    (h : q ∈ (saveDocx fs od fp).1) :
    q = outPath od fp "md" ∨ q = outPath od fp "docx" := by
  unfold saveDocx at h
  repeat' split at h
  all_goals first
    | exact Or.inl (wrOr_mem h)
    | (refine Or.inr ?_; simpa using h)

theorem saveXlsx_shape {fs : FsEnv} {od fp md q : String} {th : List PyVal}
    (h : q ∈ (saveXlsx fs od fp md th).1) :
    q = outPath od fp "csv" ∨ q = outPath od fp "xlsx" := by
  unfold saveXlsx at h
  repeat' split at h
  all_goals first
    | exact Or.inl (wrOr_mem h)
    | (refine Or.inr ?_; simpa using h)
    | simp at h

theorem saveHtml_shape {fs : FsEnv} {od fp q : String} {th : List PyVal}
    (h : q ∈ (saveHtml fs od fp th).1) : q = outPath od fp "html" := by
  unfold saveHtml at h
  repeat' split at h
  all_goals first
    | exact wrOr_mem h
    | simp at h

theorem savePdf_shape {fs : FsEnv} {od fp q : String}
    (h : q ∈ (savePdf fs od fp).1) :
    q = outPath od fp "md" ∨ q = outPath od fp "pdf" := by
  unfold savePdf at h
  repeat' split at h
  all_goals first
    | exact Or.inl (wrOr_mem h)
    | (refine Or.inr ?_; simpa using h)

/-- Every file `save_results` writes is `output_dir/<stem>.<ext>` for the
input's basename stem and a dot-free literal extension. -/
theorem save_results_writes_shape (fs : FsEnv) (od ef fp text md : String)
    (th : List PyVal) (ld : List LayoutBlock) (rr : PyVal) :
    ∀ q ∈ (save_results fs od ef fp text md th ld rr).1,
      ∃ e : String, (∀ c ∈ e.data, c ≠ '.') ∧ q = outPath od fp e := by
  intro q hq
  unfold save_results at hq
  by_cases h1 : (strToLower ef == "txt") = true
  · rw [if_pos h1] at hq; exact ⟨"txt", by decide, wrOr_mem hq⟩
  rw [if_neg h1] at hq
  by_cases h2 : (strToLower ef == "json") = true
  · rw [if_pos h2] at hq; exact ⟨"json", by decide, wrOr_mem hq⟩
  rw [if_neg h2] at hq
  by_cases h3 : strContains (strToLower ef) "csv" = true
  · rw [if_pos h3] at hq; exact ⟨"csv", by decide, wrOr_mem hq⟩
  rw [if_neg h3] at hq
  by_cases h4 : strContains (strToLower ef) "可搜索pdf" = true
  · rw [if_pos h4] at hq; exact ⟨"txt", by decide, wrOr_mem hq⟩
  rw [if_neg h4] at hq
  by_cases h5 : strContains (strToLower ef) "带标注" = true
  · rw [if_pos h5] at hq; exact ⟨"txt", by decide, wrOr_mem hq⟩
  rw [if_neg h5] at hq
  by_cases h6 : (strContains (strToLower ef) "docx" || strContains (strToLower ef) "word") = true
  · rw [if_pos h6] at hq
    rcases saveDocx_shape hq with h | h
    · exact ⟨"md", by decide, h⟩
    · exact ⟨"docx", by decide, h⟩
  rw [if_neg h6] at hq
  by_cases h7 : (strContains (strToLower ef) "xlsx" || strContains (strToLower ef) "excel") = true
  · rw [if_pos h7] at hq
    rcases saveXlsx_shape hq with h | h
    · exact ⟨"csv", by decide, h⟩
    · exact ⟨"xlsx", by decide, h⟩
  rw [if_neg h7] at hq
  by_cases h8 : (strContains (strToLower ef) "markdown" || strContains (strToLower ef) "md") = true
  · rw [if_pos h8] at hq; exact ⟨"md", by decide, wrOr_mem hq⟩
  rw [if_neg h8] at hq
  by_cases h9 : strContains (strToLower ef) "html" = true
  · rw [if_pos h9] at hq; exact ⟨"html", by decide, saveHtml_shape hq⟩
  rw [if_neg h9] at hq
  by_cases h10 : (strContains (strToLower ef) "版面树" || strContains (strToLower ef) "layout") = true
  · rw [if_pos h10] at hq; exact ⟨"json", by decide, wrOr_mem hq⟩
  rw [if_neg h10] at hq
  by_cases h11 : (strContains (strToLower ef) "pdf" && !strContains (strToLower ef) "可搜索") = true
  · rw [if_pos h11] at hq
    rcases savePdf_shape hq with h | h
    · exact ⟨"md", by decide, h⟩
    · exact ⟨"pdf", by decide, h⟩
  rw [if_neg h11] at hq
  by_cases h12 : (strContains (strToLower ef) "latex" || strContains (strToLower ef) "公式") = true
  · rw [if_pos h12] at hq; exact ⟨"tex", by decide, wrOr_mem hq⟩
  rw [if_neg h12] at hq
  by_cases h13 : (strContains (strToLower ef) "语义" || strContains (strToLower ef) "kvp") = true
  · rw [if_pos h13] at hq; exact ⟨"json", by decide, wrOr_mem hq⟩
  rw [if_neg h13] at hq
  by_cases h14 : (strContains (strToLower ef) "叙述" || strContains (strToLower ef) "narrative") = true
  · rw [if_pos h14] at hq; exact ⟨"txt", by decide, wrOr_mem hq⟩
  rw [if_neg h14] at hq
  by_cases h15 : (strContains (strToLower ef) "代码" || strContains (strToLower ef) "code") = true
  · rw [if_pos h15] at hq; exact ⟨"py", by decide, wrOr_mem hq⟩
  rw [if_neg h15] at hq
  exact ⟨"txt", by decide, wrOr_mem hq⟩

theorem dotfree_split : ∀ (a : List Char) {b x y : List Char},
    (∀ c ∈ a, c ≠ '.') → (∀ c ∈ b, c ≠ '.') →
    a ++ '.' :: x = b ++ '.' :: y → a = b ∧ x = y := by
  intro a
  induction a with
  | nil =>
    intro b x y _ hb h
    cases b with
    | nil => simpa using h
    | cons d b' =>
      simp only [List.nil_append, List.cons_append, List.cons.injEq] at h
      exact absurd h.1.symm (hb d (by simp))
  | cons c a' ih =>
    intro b x y ha hb h
    cases b with
    | nil =>
      simp only [List.cons_append, List.nil_append, List.cons.injEq] at h
      exact absurd h.1 (ha c (by simp))
    | cons d b' =>
      simp only [List.cons_append, List.cons.injEq] at h
      obtain ⟨rfl, h2⟩ := h
      have := ih (fun e he => ha e (by simp [he])) (fun e he => hb e (by simp [he])) h2
      exact ⟨by rw [this.1], this.2⟩

theorem stem_ext_inj {s1 s2 e1 e2 : String}
    (he1 : ∀ c ∈ e1.data, c ≠ '.') (he2 : ∀ c ∈ e2.data, c ≠ '.')
    (h : s1 ++ "." ++ e1 = s2 ++ "." ++ e2) : s1 = s2 := by
  have hd : (s1.data ++ ['.']) ++ e1.data = (s2.data ++ ['.']) ++ e2.data := by
    have := congrArg String.data h
    simpa [String.data_append] using this
  have hd2 : s1.data ++ '.' :: e1.data = s2.data ++ '.' :: e2.data := by
    simpa [List.append_assoc] using hd
  have hr : e1.data.reverse ++ '.' :: s1.data.reverse =
      e2.data.reverse ++ '.' :: s2.data.reverse := by
    have := congrArg List.reverse hd2
    simpa [List.reverse_append] using this
  have hsp := dotfree_split e1.data.reverse
    (fun c hc => he1 c (List.mem_reverse.mp hc))
    (fun c hc => he2 c (List.mem_reverse.mp hc)) hr
  exact String.ext (List.reverse_injective hsp.2)

theorem pathJoin_inj {d x y : String} (h : pathJoin d x = pathJoin d y) : x = y := by
  unfold pathJoin at h
  split at h
  · exact h
  · split at h
    · have hd := congrArg String.data h
      simp only [String.data_append] at hd
      exact String.ext (List.append_cancel_left hd)
    · have hd := congrArg String.data h
      simp only [String.data_append, List.append_assoc] at hd
      exact String.ext (List.append_cancel_left (List.append_cancel_left hd))

theorem outPath_inj {od f1 f2 e1 e2 : String}
    (he1 : ∀ c ∈ e1.data, c ≠ '.') (he2 : ∀ c ∈ e2.data, c ≠ '.')
    (h : outPath od f1 e1 = outPath od f2 e2) : stemOf f1 = stemOf f2 := by
  unfold outPath at h
  exact stem_ext_inj he1 he2 (pathJoin_inj h)

/-- C7 (counterexample): the claim says any two distinct input items write
distinct output paths, but the output path depends only on the basename
stem and the format: the distinct inputs `a/x.png` and `b/x.png` both
write `out/x.txt`. -/
theorem C7_counterexample :
    ("a/x.png" : String) ≠ "b/x.png" ∧
    (save_results fsAllOk "out" "TXT" "a/x.png" "t" "" [] [] (.pydict [])).1 =
      ["out/x.txt"] ∧
    (save_results fsAllOk "out" "TXT" "b/x.png" "t" "" [] [] (.pydict [])).1 =
      ["out/x.txt"] :=
  ⟨by decide, by decide, by decide⟩

/-- C7 (amended): two input items whose basename stems differ write
disjoint sets of output files (for the job's shared output directory and
export format); the output path is derived inside `save_results` from the
input path and the export format. -/
theorem C7_amended_distinct_outputs :
    ∀ (fs1 fs2 : FsEnv) (od ef f1 f2 t1 t2 m1 m2 : String)
      (th1 th2 : List PyVal) (ld1 ld2 : List LayoutBlock) (r1 r2 : PyVal),
      stemOf f1 ≠ stemOf f2 →
      ∀ q1 ∈ (save_results fs1 od ef f1 t1 m1 th1 ld1 r1).1,
      ∀ q2 ∈ (save_results fs2 od ef f2 t2 m2 th2 ld2 r2).1,
      q1 ≠ q2 := by
  intro fs1 fs2 od ef f1 f2 t1 t2 m1 m2 th1 th2 ld1 ld2 r1 r2 hne q1 hq1 q2 hq2 heq
  obtain ⟨e1, he1, rfl⟩ := save_results_writes_shape fs1 od ef f1 t1 m1 th1 ld1 r1 q1 hq1
  obtain ⟨e2, he2, h2⟩ := save_results_writes_shape fs2 od ef f2 t2 m2 th2 ld2 r2 q2 hq2
  exact hne (outPath_inj he1 he2 (heq.trans h2))

/-- C7 witness: two inputs with distinct stems write distinct files. -/
theorem C7_amended_distinct_outputs_witness :
    "out/x.txt" ≠ "out/y.txt" := by
  have hm1 : "out/x.txt" ∈ (save_results fsAllOk "out" "TXT" "a/x.png" "t" "" [] []
      (.pydict [])).1 := by decide
  have hm2 : "out/y.txt" ∈ (save_results fsAllOk "out" "TXT" "b/y.png" "t" "" [] []
      (.pydict [])).1 := by decide
  exact C7_amended_distinct_outputs fsAllOk fsAllOk "out" "TXT" "a/x.png" "b/y.png"
    "t" "t" "" "" [] [] [] [] (.pydict []) (.pydict []) (by decide)
    "out/x.txt" hm1 "out/y.txt" hm2

/-!  C9: the export contract. -/

/-- A message that states why no file could be produced: the outer-handler
message `导出错误: ...` or the Excel branch's `Excel导出失败: ...` (the only
two return paths of `save_results` that write nothing). -/
def isFailureMsg (m : String) : Prop :=
  ∃ e, m = "导出错误: " ++ e ∨ m = "Excel导出失败: " ++ e

theorem wrOr_spec (fs : FsEnv) (p m : String) :
    (wrOr fs p m).1 ≠ [] ∨ isFailureMsg (wrOr fs p m).2 := by
  unfold wrOr
  split
  · left; simp
  · right; exact ⟨_, Or.inl rfl⟩

theorem saveDocx_spec (fs : FsEnv) (od fp : String) :
    (saveDocx fs od fp).1 ≠ [] ∨ isFailureMsg (saveDocx fs od fp).2 := by
  unfold saveDocx
  repeat' split
  all_goals first
    | exact wrOr_spec ..
    | (left; simp)

theorem saveXlsx_spec (fs : FsEnv) (od fp md : String) (th : List PyVal) :
    (saveXlsx fs od fp md th).1 ≠ [] ∨ isFailureMsg (saveXlsx fs od fp md th).2 := by
  unfold saveXlsx
  repeat' split
  all_goals first
    | exact wrOr_spec ..
    | (right; exact ⟨_, Or.inr rfl⟩)
    | (left; simp)

theorem saveHtml_spec (fs : FsEnv) (od fp : String) (th : List PyVal) :
    (saveHtml fs od fp th).1 ≠ [] ∨ isFailureMsg (saveHtml fs od fp th).2 := by
  unfold saveHtml
  repeat' split
  all_goals first
    | exact wrOr_spec ..
    | (right; exact ⟨_, Or.inl rfl⟩)

theorem savePdf_spec (fs : FsEnv) (od fp : String) :
    (savePdf fs od fp).1 ≠ [] ∨ isFailureMsg (savePdf fs od fp).2 := by
  unfold savePdf
  repeat' split
  all_goals first
    | exact wrOr_spec ..
    | (left; simp)

theorem save_results_spec (fs : FsEnv) (od ef fp text md : String)
    (th : List PyVal) (ld : List LayoutBlock) (rr : PyVal) :
    (save_results fs od ef fp text md th ld rr).1 ≠ [] ∨
      isFailureMsg (save_results fs od ef fp text md th ld rr).2 := by
  unfold save_results
  by_cases h1 : (strToLower ef == "txt") = true
  · rw [if_pos h1]; exact wrOr_spec ..
  rw [if_neg h1]
  by_cases h2 : (strToLower ef == "json") = true
  · rw [if_pos h2]; exact wrOr_spec ..
  rw [if_neg h2]
  by_cases h3 : strContains (strToLower ef) "csv" = true
  · rw [if_pos h3]; exact wrOr_spec ..
  rw [if_neg h3]
  by_cases h4 : strContains (strToLower ef) "可搜索pdf" = true
  · rw [if_pos h4]; exact wrOr_spec ..
  rw [if_neg h4]
  by_cases h5 : strContains (strToLower ef) "带标注" = true
  · rw [if_pos h5]; exact wrOr_spec ..
  rw [if_neg h5]
  by_cases h6 : (strContains (strToLower ef) "docx" || strContains (strToLower ef) "word") = true
  · rw [if_pos h6]; exact saveDocx_spec ..
  rw [if_neg h6]
  by_cases h7 : (strContains (strToLower ef) "xlsx" || strContains (strToLower ef) "excel") = true
  · rw [if_pos h7]; exact saveXlsx_spec ..
  rw [if_neg h7]
  by_cases h8 : (strContains (strToLower ef) "markdown" || strContains (strToLower ef) "md") = true
  · rw [if_pos h8]; exact wrOr_spec ..
  rw [if_neg h8]
  by_cases h9 : strContains (strToLower ef) "html" = true
  · rw [if_pos h9]; exact saveHtml_spec ..
  rw [if_neg h9]
  by_cases h10 : (strContains (strToLower ef) "版面树" || strContains (strToLower ef) "layout") = true
  · rw [if_pos h10]; exact wrOr_spec ..
  rw [if_neg h10]
  by_cases h11 : (strContains (strToLower ef) "pdf" && !strContains (strToLower ef) "可搜索") = true
  · rw [if_pos h11]; exact savePdf_spec ..
  rw [if_neg h11]
  by_cases h12 : (strContains (strToLower ef) "latex" || strContains (strToLower ef) "公式") = true
  · rw [if_pos h12]; exact wrOr_spec ..
  rw [if_neg h12]
  by_cases h13 : (strContains (strToLower ef) "语义" || strContains (strToLower ef) "kvp") = true
  · rw [if_pos h13]; exact wrOr_spec ..
  rw [if_neg h13]
  by_cases h14 : (strContains (strToLower ef) "叙述" || strContains (strToLower ef) "narrative") = true
  · rw [if_pos h14]; exact wrOr_spec ..
  rw [if_neg h14]
  by_cases h15 : (strContains (strToLower ef) "代码" || strContains (strToLower ef) "code") = true
  · rw [if_pos h15]; exact wrOr_spec ..
  rw [if_neg h15]
  exact wrOr_spec ..

/-- C9: `save_results` never throws and always returns a status string; it
either writes some output file or returns a message stating why it could
not; and a missing optional dependency (python-docx / openpyxl /
reportlab) falls back to the simplest textual format (markdown or CSV)
with a message noting the fallback. -/
theorem C9_export_contract :
    (∀ (fs : FsEnv) (od ef fp text md : String) (th : List PyVal)
        (ld : List LayoutBlock) (rr : PyVal),
        (save_results fs od ef fp text md th ld rr).1 ≠ [] ∨
          isFailureMsg (save_results fs od ef fp text md th ld rr).2) ∧
    (∀ (fs : FsEnv) (od fp text md : String) (th : List PyVal)
        (ld : List LayoutBlock) (rr : PyVal),
        fs.hasDocx = false → fs.writeFail (outPath od fp "md") = Option.none →
        save_results fs od "DOCX" fp text md th ld rr =
          ([outPath od fp "md"], "导出失败: 需要安装python-docx (已保存为MD)")) ∧
    (∀ (fs : FsEnv) (od fp text md : String) (th : List PyVal)
        (ld : List LayoutBlock) (rr : PyVal),
        fs.hasOpenpyxl = false → fs.writeFail (outPath od fp "csv") = Option.none →
        save_results fs od "XLSX" fp text md th ld rr =
          ([outPath od fp "csv"], "导出失败: 需要安装openpyxl (已保存为CSV)")) ∧
    (∀ (fs : FsEnv) (od fp text md : String) (th : List PyVal)
        (ld : List LayoutBlock) (rr : PyVal),
        fs.hasReportlab = false → fs.writeFail (outPath od fp "md") = Option.none →
        save_results fs od "PDF" fp text md th ld rr =
          ([outPath od fp "md"], "导出失败: 需要安装reportlab (已保存为MD)")) := by
  refine ⟨save_results_spec, ?_, ?_, ?_⟩
  · intro fs od fp text md th ld rr hdep hw
    unfold save_results
    rw [if_neg (by decide), if_neg (by decide), if_neg (by decide), if_neg (by decide),
        if_neg (by decide), if_pos (by decide)]
    unfold saveDocx
    rw [if_pos (by simp [hdep])]
    unfold wrOr
    rw [hw]
  · intro fs od fp text md th ld rr hdep hw
    unfold save_results
    rw [if_neg (by decide), if_neg (by decide), if_neg (by decide), if_neg (by decide),
        if_neg (by decide), if_neg (by decide), if_pos (by decide)]
    unfold saveXlsx
    rw [if_pos (by simp [hdep])]
    unfold wrOr
    rw [hw]
  · intro fs od fp text md th ld rr hdep hw
    unfold save_results
    rw [if_neg (by decide), if_neg (by decide), if_neg (by decide), if_neg (by decide),
        if_neg (by decide), if_neg (by decide), if_neg (by decide), if_neg (by decide),
        if_neg (by decide), if_neg (by decide), if_pos (by decide)]
    unfold savePdf
    rw [if_pos (by simp [hdep])]
    unfold wrOr
    rw [hw]

/-- A filesystem environment with every optional dependency missing. -/
def fsNoDeps : FsEnv :=
  ⟨fun _ => Option.none, false, false, false, Option.none, Option.none, Option.none,
   fun _ => []⟩

/-- C9 witness: concrete instantiation of every conjunct. -/
theorem C9_export_contract_witness :
    ((save_results fsNoDeps "out" "TXT" "a/x.png" "t" "" [] [] (.pydict [])).1 ≠ [] ∨
      isFailureMsg (save_results fsNoDeps "out" "TXT" "a/x.png" "t" "" [] [] (.pydict [])).2) ∧
    save_results fsNoDeps "out" "DOCX" "a/x.png" "t" "m" [] [] (.pydict []) =
      (["out/x.md"], "导出失败: 需要安装python-docx (已保存为MD)") ∧
    save_results fsNoDeps "out" "XLSX" "a/x.png" "t" "m" [] [] (.pydict []) =
      (["out/x.csv"], "导出失败: 需要安装openpyxl (已保存为CSV)") ∧
    save_results fsNoDeps "out" "PDF" "a/x.png" "t" "m" [] [] (.pydict []) =
      (["out/x.md"], "导出失败: 需要安装reportlab (已保存为MD)") := by
  refine ⟨C9_export_contract.1 fsNoDeps "out" "TXT" "a/x.png" "t" "" [] [] (.pydict []),
          ?_, ?_, ?_⟩
  · have := C9_export_contract.2.1 fsNoDeps "out" "a/x.png" "t" "m" [] [] (.pydict [])
      rfl rfl
    simpa using this
  · have := C9_export_contract.2.2.1 fsNoDeps "out" "a/x.png" "t" "m" [] [] (.pydict [])
      rfl rfl
    simpa using this
  · have := C9_export_contract.2.2.2 fsNoDeps "out" "a/x.png" "t" "m" [] [] (.pydict [])
      rfl rfl
    simpa using this

/-!  C5 and C6: the OCR client contract. -/

/-- The retry loop makes at most `remaining` further POSTs beyond those
already recorded in the trace. -/
theorem ocrAttemptLoop_posts_le (env : OcrEnv) (stopAt : Option Nat) (model : String) :
    ∀ (remaining t : Nat) (lastError : Option String) (tr : OcrTrace),
      (ocrAttemptLoop env stopAt model remaining t lastError tr).2.1.posts ≤
        tr.posts + remaining := by
  intro remaining
  induction remaining with
  | zero => intro t le tr; simp [ocrAttemptLoop]
  | succ n ih =>
    intro t le tr
    unfold ocrAttemptLoop
    split
    · dsimp only; omega
    · dsimp only
      cases ho : env.outcome (tr.posts + 1 - 1) with
      | timeout =>
        dsimp only
        split
        · exact le_trans (ih _ _ _) (by dsimp only; omega)
        · dsimp only; omega
      | connError m =>
        dsimp only
        split
        · dsimp only; omega
        · split
          · exact le_trans (ih _ _ _) (by dsimp only; omega)
          · dsimp only; omega
      | otherExn m =>
        dsimp only
        split
        · dsimp only; omega
        · dsimp only; omega
      | httpResp st text body =>
        dsimp only
        repeat' split
        all_goals first
          | omega
          | (dsimp only; omega)

/-- C5: timeouts and connection failures are each retried up to 2
additional attempts with a fixed 1-second backoff: two timeouts or two
connection failures followed by a 200 yield the parsed success with three
POSTs and sleeps `[1, 1]`; three timeouts or three connection failures
exhaust the retries after exactly three POSTs and surface the transient
error; no call ever makes more than three POSTs; whereas a non-200 status
or an embedded non-zero error code returns immediately as an error with
the raw body truncated to 500 characters, after exactly one POST and no
sleep. -/
theorem C5_retry_policy :
    (∀ (env : OcrEnv) (mo : Option String) (text : String) (j : PyVal) (r : OcrSuccess),
        env.outcome 0 = .timeout → env.outcome 1 = .timeout →
        env.outcome 2 = .httpResp 200 text (.ok j) →
        optTruthy (env.urlFor (resolveModel mo env.currentModel)) = true →
        optTruthy (env.tokenFor (resolveModel mo env.currentModel)) = true →
        embeddedErrorE j = .ok Option.none →
        parse_result j (resolveModel mo env.currentModel) = .ok r →
        ocr_file env mo false Option.none 0 = (.ok r, ⟨3, [1, 1]⟩, 5)) ∧
    (∀ (env : OcrEnv) (mo : Option String) (m0 m1 text : String) (j : PyVal)
        (r : OcrSuccess),
        env.outcome 0 = .connError m0 → env.outcome 1 = .connError m1 →
        env.outcome 2 = .httpResp 200 text (.ok j) →
        optTruthy (env.urlFor (resolveModel mo env.currentModel)) = true →
        optTruthy (env.tokenFor (resolveModel mo env.currentModel)) = true →
        embeddedErrorE j = .ok Option.none →
        parse_result j (resolveModel mo env.currentModel) = .ok r →
        ocr_file env mo false Option.none 0 = (.ok r, ⟨3, [1, 1]⟩, 7)) ∧
    (∀ (env : OcrEnv) (mo : Option String),
        env.outcome 0 = .timeout → env.outcome 1 = .timeout → env.outcome 2 = .timeout →
        optTruthy (env.urlFor (resolveModel mo env.currentModel)) = true →
        optTruthy (env.tokenFor (resolveModel mo env.currentModel)) = true →
        ocr_file env mo false Option.none 0 =
          (.err "请求超时，请检查网络或稍后重试" Option.none, ⟨3, [1, 1]⟩, 4)) ∧
    (∀ (env : OcrEnv) (mo : Option String) (m0 m1 m2 : String),
        env.outcome 0 = .connError m0 → env.outcome 1 = .connError m1 →
        env.outcome 2 = .connError m2 →
        optTruthy (env.urlFor (resolveModel mo env.currentModel)) = true →
        optTruthy (env.tokenFor (resolveModel mo env.currentModel)) = true →
        ocr_file env mo false Option.none 0 =
          (.err ("连接错误: " ++ strTake m2 80) Option.none, ⟨3, [1, 1]⟩, 7)) ∧
    (∀ (env : OcrEnv) (mo : Option String) (st : Nat) (text : String)
        (body : Except String PyVal),
        env.outcome 0 = .httpResp st text body → (st != 200) = true →
        optTruthy (env.urlFor (resolveModel mo env.currentModel)) = true →
        optTruthy (env.tokenFor (resolveModel mo env.currentModel)) = true →
        ocr_file env mo false Option.none 0 =
          (.err ("HTTP " ++ toString st) (some (strTake text 500)), ⟨1, []⟩, 3)) ∧
    (∀ (env : OcrEnv) (mo : Option String) (text m raw : String) (j : PyVal),
        env.outcome 0 = .httpResp 200 text (.ok j) →
        embeddedErrorE j = .ok (some (m, raw)) →
        optTruthy (env.urlFor (resolveModel mo env.currentModel)) = true →
        optTruthy (env.tokenFor (resolveModel mo env.currentModel)) = true →
        ocr_file env mo false Option.none 0 = (.err m (some raw), ⟨1, []⟩, 3)) ∧
    (∀ (env : OcrEnv) (mo : Option String) (ofs : Bool) (sA : Option Nat) (t : Nat),
        (ocr_file env mo ofs sA t).2.1.posts ≤ 3) := by
  refine ⟨?_, ?_, ?_, ?_, ?_, ?_, ?_⟩
  · intro env mo text j r h0 h1 h2 hurl htok hemb hparse
    simp [ocr_file, ocrAttemptLoop, checkStop, h0, h1, h2, hurl, htok, hemb, hparse]
  · intro env mo m0 m1 text j r h0 h1 h2 hurl htok hemb hparse
    simp [ocr_file, ocrAttemptLoop, checkStop, h0, h1, h2, hurl, htok, hemb, hparse]
  · intro env mo h0 h1 h2 hurl htok
    simp [ocr_file, ocrAttemptLoop, checkStop, h0, h1, h2, hurl, htok]
  · intro env mo m0 m1 m2 h0 h1 h2 hurl htok
    simp [ocr_file, ocrAttemptLoop, checkStop, h0, h1, h2, hurl, htok]
  · intro env mo st text body h0 hst hurl htok
    simp [ocr_file, ocrAttemptLoop, checkStop, h0, hst, hurl, htok]
  · intro env mo text m raw j h0 hemb hurl htok
    simp [ocr_file, ocrAttemptLoop, checkStop, h0, hemb, hurl, htok]
  · intro env mo ofs sA t
    unfold ocr_file
    split
    · simp
    · dsimp only
      split
      · simp
      · exact le_trans (ocrAttemptLoop_posts_le env sA
          (resolveModel mo env.currentModel) 3 (t + 1) Option.none ⟨0, []⟩) (by simp)

/-- Network environment whose first two attempts time out and whose third
returns a parseable 200 response. -/
def ocrEnvRetryW : OcrEnv :=
  ⟨"PP-OCRv5", fun _ => some "http://u", fun _ => some "tok",
   fun n => if n < 2 then .timeout
     else .httpResp 200 ""
       (.ok (.pydict [("result", .pydict [("ocrResults",
         .pylist [.pydict [("rec_texts", .pylist [.pystr "hello"])]])])]))⟩

/-- Network environment whose first two attempts fail to connect and whose
third returns a parseable 200 response. -/
def ocrEnvConnRetryW : OcrEnv :=
  ⟨"PP-OCRv5", fun _ => some "http://u", fun _ => some "tok",
   fun n => if n < 2 then .connError "refused"
     else .httpResp 200 ""
       (.ok (.pydict [("result", .pydict [("ocrResults",
         .pylist [.pydict [("rec_texts", .pylist [.pystr "hello"])]])])]))⟩

/-- The parse of the retry environments' third response. -/
def ocrResRetryW : OcrSuccess :=
  ⟨[.pystr "hello"], "", [], [],
   some (.pydict [("ocrResults", .pylist [.pydict [("rec_texts",
     .pylist [.pystr "hello"])]])]),
   Option.none, Option.none⟩

/-- Network environment that always times out. -/
def ocrEnvTimeoutW : OcrEnv :=
  ⟨"M", fun _ => some "u", fun _ => some "k", fun _ => .timeout⟩

/-- Network environment that always fails to connect. -/
def ocrEnvConnW : OcrEnv :=
  ⟨"M", fun _ => some "u", fun _ => some "k", fun _ => .connError "refused"⟩

/-- Network environment answering 500 at once. -/
def ocrEnv500W : OcrEnv :=
  ⟨"M", fun _ => some "u", fun _ => some "k",
   fun _ => .httpResp 500 "oops" (.error "boom")⟩

/-- Network environment answering 200 with an embedded error code. -/
def ocrEnvEmbW : OcrEnv :=
  ⟨"M", fun _ => some "u", fun _ => some "k",
   fun _ => .httpResp 200 ""
     (.ok (.pydict [("errorCode", .pyint 3), ("errorMsg", .pystr "bad")]))⟩

/-- C5 witness: concrete instantiation of every conjunct. -/
theorem C5_retry_policy_witness :
    ocr_file ocrEnvRetryW Option.none false Option.none 0 =
      (.ok ocrResRetryW, ⟨3, [1, 1]⟩, 5) ∧
    ocr_file ocrEnvConnRetryW Option.none false Option.none 0 =
      (.ok ocrResRetryW, ⟨3, [1, 1]⟩, 7) ∧
    ocr_file ocrEnvTimeoutW Option.none false Option.none 0 =
      (.err "请求超时，请检查网络或稍后重试" Option.none, ⟨3, [1, 1]⟩, 4) ∧
    ocr_file ocrEnvConnW Option.none false Option.none 0 =
      (.err ("连接错误: " ++ strTake "refused" 80) Option.none, ⟨3, [1, 1]⟩, 7) ∧
    ocr_file ocrEnv500W Option.none false Option.none 0 =
      (.err ("HTTP " ++ toString 500) (some (strTake "oops" 500)), ⟨1, []⟩, 3) ∧
    ocr_file ocrEnvEmbW Option.none false Option.none 0 =
      (.err "API错误: bad" (some "\x7berrorCode: 3, errorMsg: bad\x7d"), ⟨1, []⟩, 3) ∧
    (ocr_file ocrEnvTimeoutW Option.none false Option.none 0).2.1.posts ≤ 3 := by
  refine ⟨C5_retry_policy.1 ocrEnvRetryW Option.none "" _ ocrResRetryW rfl rfl rfl rfl rfl
            rfl (by rfl),
          C5_retry_policy.2.1 ocrEnvConnRetryW Option.none "refused" "refused" "" _
            ocrResRetryW rfl rfl rfl rfl rfl rfl (by rfl),
          C5_retry_policy.2.2.1 ocrEnvTimeoutW Option.none rfl rfl rfl rfl rfl,
          C5_retry_policy.2.2.2.1 ocrEnvConnW Option.none "refused" "refused" "refused"
            rfl rfl rfl rfl rfl,
          C5_retry_policy.2.2.2.2.1 ocrEnv500W Option.none 500 "oops" (.error "boom")
            rfl rfl rfl rfl,
          ?_,
          C5_retry_policy.2.2.2.2.2.2 ocrEnvTimeoutW Option.none false Option.none 0⟩
  have := C5_retry_policy.2.2.2.2.2.1 ocrEnvEmbW Option.none "" "API错误: bad"
    "\x7berrorCode: 3, errorMsg: bad\x7d"
    (.pydict [("errorCode", .pyint 3), ("errorMsg", .pystr "bad")]) rfl (by rfl) rfl rfl
  exact this

/-- C6: `ocr_file` returns the stop error immediately, with zero POSTs,
when the token is set on entry; every listed failure path (missing
configuration, timeout exhaustion, connection failure, non-200 status,
embedded error code, parse exception) resolves to an error-shaped
response rather than an exception; and every call returns either an
error-shaped or a result-shaped response. -/
theorem C6_ocr_never_raises :
    (∀ (env : OcrEnv) (mo : Option String) (s t : Nat), s ≤ t →
        ocr_file env mo false (some s) t = (stopErrorResponse, ⟨0, []⟩, t + 1)) ∧
    (∀ (env : OcrEnv) (mo : Option String),
        (!optTruthy (env.urlFor (resolveModel mo env.currentModel)) ||
         !optTruthy (env.tokenFor (resolveModel mo env.currentModel))) = true →
        ocr_file env mo false Option.none 0 =
          (.err ("缺少 " ++ resolveModel mo env.currentModel ++
            " 的 URL 或 Token，请在设置中配置。") Option.none, ⟨0, []⟩, 1)) ∧
    (∀ (env : OcrEnv) (mo : Option String),
        env.outcome 0 = .timeout → env.outcome 1 = .timeout → env.outcome 2 = .timeout →
        optTruthy (env.urlFor (resolveModel mo env.currentModel)) = true →
        optTruthy (env.tokenFor (resolveModel mo env.currentModel)) = true →
        ocr_file env mo false Option.none 0 =
          (.err "请求超时，请检查网络或稍后重试" Option.none, ⟨3, [1, 1]⟩, 4)) ∧
    (∀ (env : OcrEnv) (mo : Option String) (m0 m1 m2 : String),
        env.outcome 0 = .connError m0 → env.outcome 1 = .connError m1 →
        env.outcome 2 = .connError m2 →
        optTruthy (env.urlFor (resolveModel mo env.currentModel)) = true →
        optTruthy (env.tokenFor (resolveModel mo env.currentModel)) = true →
        ocr_file env mo false Option.none 0 =
          (.err ("连接错误: " ++ strTake m2 80) Option.none, ⟨3, [1, 1]⟩, 7)) ∧
    (∀ (env : OcrEnv) (mo : Option String) (st : Nat) (text : String)
        (body : Except String PyVal),
        env.outcome 0 = .httpResp st text body → (st != 200) = true →
        optTruthy (env.urlFor (resolveModel mo env.currentModel)) = true →
        optTruthy (env.tokenFor (resolveModel mo env.currentModel)) = true →
        (ocr_file env mo false Option.none 0).1 =
          .err ("HTTP " ++ toString st) (some (strTake text 500))) ∧
    (∀ (env : OcrEnv) (mo : Option String) (text m raw : String) (j : PyVal),
        env.outcome 0 = .httpResp 200 text (.ok j) →
        embeddedErrorE j = .ok (some (m, raw)) →
        optTruthy (env.urlFor (resolveModel mo env.currentModel)) = true →
        optTruthy (env.tokenFor (resolveModel mo env.currentModel)) = true →
        (ocr_file env mo false Option.none 0).1 = .err m (some raw)) ∧
    (∀ (env : OcrEnv) (mo : Option String) (text e : String) (j : PyVal),
        env.outcome 0 = .httpResp 200 text (.ok j) →
        embeddedErrorE j = .ok Option.none →
        parse_result j (resolveModel mo env.currentModel) = .error e →
        optTruthy (env.urlFor (resolveModel mo env.currentModel)) = true →
        optTruthy (env.tokenFor (resolveModel mo env.currentModel)) = true →
        (ocr_file env mo false Option.none 0).1 = .err ("异常: " ++ e) Option.none) ∧
    (∀ (env : OcrEnv) (mo : Option String) (ofs : Bool) (sA : Option Nat) (t : Nat),
        (∃ m rw, (ocr_file env mo ofs sA t).1 = .err m rw) ∨
        (∃ rr, (ocr_file env mo ofs sA t).1 = .ok rr)) := by
  refine ⟨?_, ?_, ?_, ?_, ?_, ?_, ?_, ?_⟩
  · intro env mo s t h
    simp [ocr_file, checkStop, h]
  · intro env mo h
    simp only [ocr_file, checkStop, Bool.false_eq_true, if_false, h, if_true]
  · intro env mo h0 h1 h2 hurl htok
    simp [ocr_file, ocrAttemptLoop, checkStop, h0, h1, h2, hurl, htok]
  · intro env mo m0 m1 m2 h0 h1 h2 hurl htok
    simp [ocr_file, ocrAttemptLoop, checkStop, h0, h1, h2, hurl, htok]
  · intro env mo st text body h0 hst hurl htok
    simp [ocr_file, ocrAttemptLoop, checkStop, h0, hst, hurl, htok]
  · intro env mo text m raw j h0 hemb hurl htok
    simp [ocr_file, ocrAttemptLoop, checkStop, h0, hemb, hurl, htok]
  · intro env mo text e j h0 hemb hparse hurl htok
    simp [ocr_file, ocrAttemptLoop, checkStop, h0, hemb, hparse, hurl, htok]
  · intro env mo ofs sA t
    cases h : (ocr_file env mo ofs sA t).1 with
    | err m rw => exact Or.inl ⟨m, rw, rfl⟩
    | ok rr => exact Or.inr ⟨rr, rfl⟩

/-- Network environment with no URL configured. -/
def ocrEnvNoCfgW : OcrEnv :=
  ⟨"M", fun _ => Option.none, fun _ => some "k", fun _ => .timeout⟩

/-- Network environment whose 200 response fails to parse
(`json_data.get` raises on a non-dict). -/
def ocrEnvBadJsonW : OcrEnv :=
  ⟨"M", fun _ => some "u", fun _ => some "k",
   fun _ => .httpResp 200 "" (.ok (.pylist []))⟩

/-- C6 witness: concrete instantiation of every conjunct with a
hypothesis. -/
theorem C6_ocr_never_raises_witness :
    ocr_file ocrEnvTimeoutW Option.none false (some 0) 0 =
      (stopErrorResponse, ⟨0, []⟩, 1) ∧
    ocr_file ocrEnvNoCfgW Option.none false Option.none 0 =
      (.err ("缺少 " ++ resolveModel Option.none ocrEnvNoCfgW.currentModel ++
        " 的 URL 或 Token，请在设置中配置。") Option.none, ⟨0, []⟩, 1) ∧
    ocr_file ocrEnvTimeoutW Option.none false Option.none 0 =
      (.err "请求超时，请检查网络或稍后重试" Option.none, ⟨3, [1, 1]⟩, 4) ∧
    ocr_file ocrEnvConnW Option.none false Option.none 0 =
      (.err ("连接错误: " ++ strTake "refused" 80) Option.none, ⟨3, [1, 1]⟩, 7) ∧
    (ocr_file ocrEnv500W Option.none false Option.none 0).1 =
      .err ("HTTP " ++ toString 500) (some (strTake "oops" 500)) ∧
    (ocr_file ocrEnvEmbW Option.none false Option.none 0).1 =
      .err "API错误: bad" (some "\x7berrorCode: 3, errorMsg: bad\x7d") ∧
    (ocr_file ocrEnvBadJsonW Option.none false Option.none 0).1 =
      .err ("异常: " ++ "AttributeError: object has no attribute get (key result)")
        Option.none := by
  refine ⟨C6_ocr_never_raises.1 ocrEnvTimeoutW Option.none 0 0 (by decide),
          C6_ocr_never_raises.2.1 ocrEnvNoCfgW Option.none rfl,
          C6_ocr_never_raises.2.2.1 ocrEnvTimeoutW Option.none rfl rfl rfl rfl rfl,
          C6_ocr_never_raises.2.2.2.1 ocrEnvConnW Option.none "refused" "refused"
            "refused" rfl rfl rfl rfl rfl,
          C6_ocr_never_raises.2.2.2.2.1 ocrEnv500W Option.none 500 "oops"
            (.error "boom") rfl rfl rfl rfl,
          C6_ocr_never_raises.2.2.2.2.2.1 ocrEnvEmbW Option.none "" "API错误: bad"
            "\x7berrorCode: 3, errorMsg: bad\x7d"
            (.pydict [("errorCode", .pyint 3), ("errorMsg", .pystr "bad")])
            rfl (by rfl) rfl rfl,
          C6_ocr_never_raises.2.2.2.2.2.2.1 ocrEnvBadJsonW Option.none ""
            "AttributeError: object has no attribute get (key result)"
            (.pylist []) rfl rfl (by rfl) rfl rfl⟩

/-!  Pipeline lemmas: silence after cancellation (C1) and unique terminal
emission without cancellation (C3's per-item half). -/

theorem pipeResultPhase_no_jobTerminal (cfg : WorkerCfg) (env : PipeEnv)
    (i row : Nat) (sevs : List (Nat × Ev)) (fp : String) (brq : OcrTrace)
    (res : OcrResponse) (t6 : Nat) :
    ((pipeResultPhase cfg env i row sevs fp brq res t6).events.filter
      (fun p => isJobTerminal p.2)) = sevs.filter (fun p => isJobTerminal p.2) := by
  unfold pipeResultPhase
  repeat' split
  all_goals simp [isJobTerminal]

theorem pipeExcept_no_jobTerminal (stopAt : Option Nat) (evs : List (Nat × Ev))
    (i row : Nat) (e : String) (t : Nat) :
    ((pipeExcept stopAt evs i row e t).events.filter
      (fun p => isJobTerminal p.2)) = evs.filter (fun p => isJobTerminal p.2) := by
  unfold pipeExcept
  split
  all_goals simp [isJobTerminal]

/-- The per-item pipeline never emits a job-terminal signal
(`finished`/`stopped` are emitted only by `run`). -/
theorem process_single_file_no_jobTerminal (cfg : WorkerCfg) (env : PipeEnv)
    (i : Nat) (fp : String) (t0 : Nat) :
    ((process_single_file cfg env i fp t0).events.filter
      (fun p => isJobTerminal p.2)) = [] := by
  unfold process_single_file
  repeat' split
  all_goals first
    | (rw [pipeExcept_no_jobTerminal]; simp [isJobTerminal])
    | (rw [pipeResultPhase_no_jobTerminal]; simp [isJobTerminal])
    | simp [isJobTerminal]

theorem pipeResultPhase_stamps {s : Nat} (cfg : WorkerCfg) (env : PipeEnv)
    (i row : Nat) (sevs : List (Nat × Ev)) (fp : String) (brq : OcrTrace)
    (res : OcrResponse) (t6 : Nat) (hstop : env.stopAt = some s)
    (hsevs : ∀ p ∈ sevs, p.1 ≤ s) :
    ∀ p ∈ (pipeResultPhase cfg env i row sevs fp brq res t6).events, p.1 ≤ s := by
  unfold pipeResultPhase
  repeat' split
  all_goals intro p hp
  all_goals try exact hsevs p hp
  all_goals
    have hc : ¬ checkStop env.stopAt t6 = true := by assumption
    rcases List.mem_append.mp hp with h | h
    · exact hsevs p h
    · have ht : ¬ s ≤ t6 := by simpa [checkStop, hstop] using hc
      simp only [List.mem_cons, List.not_mem_nil, or_false] at h
      rcases h with rfl | rfl | rfl <;> (simp; omega)

theorem pipeExcept_stamps {s : Nat} (stopAt : Option Nat) (evs : List (Nat × Ev))
    (i row : Nat) (e : String) (t : Nat) (hstop : stopAt = some s)
    (hevs : ∀ p ∈ evs, p.1 ≤ s) :
    ∀ p ∈ (pipeExcept stopAt evs i row e t).events, p.1 ≤ s := by
  unfold pipeExcept
  split
  · exact hevs
  · rename_i hc
    intro p hp
    rcases List.mem_append.mp hp with h | h
    · exact hevs p h
    · have ht : ¬ s ≤ t := by simpa [checkStop, hstop] using hc
      simp only [List.mem_cons, List.not_mem_nil, or_false] at h
      rcases h with rfl | rfl | rfl <;> (simp; omega)

theorem pipeResultPhase_tEnd (cfg : WorkerCfg) (env : PipeEnv)
    (i row : Nat) (sevs : List (Nat × Ev)) (fp : String) (brq : OcrTrace)
    (res : OcrResponse) (t6 : Nat) :
    (pipeResultPhase cfg env i row sevs fp brq res t6).tEnd = t6 + 1 := by
  unfold pipeResultPhase
  repeat' split
  all_goals rfl

theorem pipeResultPhase_silent {s : Nat} (cfg : WorkerCfg) (env : PipeEnv)
    (i row : Nat) (sevs : List (Nat × Ev)) (fp : String) (brq : OcrTrace)
    (res : OcrResponse) (t6 : Nat) (hstop : env.stopAt = some s)
    (hlt : s < (pipeResultPhase cfg env i row sevs fp brq res t6).tEnd) :
    (pipeResultPhase cfg env i row sevs fp brq res t6).retStatus = Option.none := by
  have htEnd := pipeResultPhase_tEnd cfg env i row sevs fp brq res t6
  have hs : s ≤ t6 := by omega
  have hc : checkStop env.stopAt t6 = true := by simp [checkStop, hstop, hs]
  unfold pipeResultPhase
  repeat' split
  all_goals first
    | rfl
    | exact absurd hc (by assumption)

theorem pipeExcept_tEnd (stopAt : Option Nat) (evs : List (Nat × Ev))
    (i row : Nat) (e : String) (t : Nat) :
    (pipeExcept stopAt evs i row e t).tEnd = t + 1 := by
  unfold pipeExcept
  split
  all_goals rfl

theorem pipeExcept_silent {s : Nat} (stopAt : Option Nat) (evs : List (Nat × Ev))
    (i row : Nat) (e : String) (t : Nat) (hstop : stopAt = some s)
    (hlt : s < (pipeExcept stopAt evs i row e t).tEnd) :
    (pipeExcept stopAt evs i row e t).retStatus = Option.none := by
  have htEnd := pipeExcept_tEnd stopAt evs i row e t
  have hs : s ≤ t := by omega
  have hc : checkStop stopAt t = true := by simp [checkStop, hstop, hs]
  unfold pipeExcept
  split
  · rfl
  · exact absurd hc (by assumption)

theorem startEvs_stamps {s : Nat} (stopAt : Option Nat) (row t0 : Nat)
    (hstop : stopAt = some s) :
    ∀ p ∈ (if checkStop stopAt (t0 + 1) then ([] : List (Nat × Ev))
           else [(t0 + 2, Ev.statusUpdate row "处理中..."),
                 (t0 + 2, Ev.progressUpdate row 50 100)]), p.1 ≤ s := by
  split
  · simp
  · have hc : ¬ checkStop stopAt (t0 + 1) = true := by assumption
    have ht : ¬ s ≤ t0 + 1 := by simpa [checkStop, hstop] using hc
    intro p hp
    simp only [List.mem_cons, List.not_mem_nil, or_false] at hp
    rcases hp with rfl | rfl <;> (simp; omega)

theorem process_single_file_stamps {s : Nat} (cfg : WorkerCfg) (env : PipeEnv)
    (i : Nat) (fp : String) (t0 : Nat) (hstop : env.stopAt = some s) :
    ∀ p ∈ (process_single_file cfg env i fp t0).events, p.1 ≤ s := by
  intro p hp
  unfold process_single_file at hp
  by_cases c0 : checkStop env.stopAt t0 = true
  · rw [if_pos c0] at hp; dsimp only at hp; simp at hp
  rw [if_neg c0] at hp
  by_cases c2 : checkStop env.stopAt (t0 + 2) = true
  · rw [if_pos c2] at hp; dsimp only at hp
    exact startEvs_stamps env.stopAt _ t0 hstop p hp
  rw [if_neg c2] at hp
  rcases hrf : env.readFile with e | fb
  · rw [hrf] at hp; dsimp only at hp
    exact pipeExcept_stamps _ _ _ _ _ _ hstop (startEvs_stamps env.stopAt _ t0 hstop) p hp
  rw [hrf] at hp; dsimp only at hp
  by_cases c3 : checkStop env.stopAt (t0 + 3) = true
  · rw [if_pos c3] at hp; dsimp only at hp
    exact startEvs_stamps env.stopAt _ t0 hstop p hp
  rw [if_neg c3] at hp
  rcases hocr : ocr_file env.ocr cfg.modelOverride false env.stopAt (t0 + 4)
    with ⟨res, brq, t5⟩
  rw [hocr] at hp; dsimp only at hp
  by_cases c5 : checkStop env.stopAt t5 = true
  · rw [if_pos c5] at hp; dsimp only at hp
    exact startEvs_stamps env.stopAt _ t0 hstop p hp
  rw [if_neg c5] at hp
  exact pipeResultPhase_stamps cfg env i _ _ fp brq res (t5 + 1) hstop
    (startEvs_stamps env.stopAt _ t0 hstop) p hp

theorem process_single_file_silent {s : Nat} (cfg : WorkerCfg) (env : PipeEnv)
    (i : Nat) (fp : String) (t0 : Nat) (hstop : env.stopAt = some s) :
    s < (process_single_file cfg env i fp t0).tEnd →
    (process_single_file cfg env i fp t0).retStatus = Option.none := by
  unfold process_single_file
  by_cases c0 : checkStop env.stopAt t0 = true
  · rw [if_pos c0]; intro _; rfl
  rw [if_neg c0]
  by_cases c2 : checkStop env.stopAt (t0 + 2) = true
  · rw [if_pos c2]; intro _; rfl
  rw [if_neg c2]
  rcases hrf : env.readFile with e | fb
  · dsimp only
    exact fun hlt => pipeExcept_silent _ _ _ _ _ _ hstop hlt
  dsimp only
  by_cases c3 : checkStop env.stopAt (t0 + 3) = true
  · rw [if_pos c3]; intro _; rfl
  rw [if_neg c3]
  rcases hocr : ocr_file env.ocr cfg.modelOverride false env.stopAt (t0 + 4)
    with ⟨res, brq, t5⟩
  dsimp only
  by_cases c5 : checkStop env.stopAt t5 = true
  · rw [if_pos c5]; intro _; rfl
  rw [if_neg c5]
  exact fun hlt => pipeResultPhase_silent cfg env i _ _ fp brq res (t5 + 1) hstop hlt

/-- C1: once the cancellation token is set (at tick `s` of the item's
clock), the pipeline of an item that has not yet emitted a terminal
status emits nothing further: every emitted signal carries a timestamp at
or before `s`, and whenever any of the pipeline's check points observed
the cancellation (that is, the token was set before the final check), the
pipeline returns the silent `None`-status marker. -/
theorem C1_pipeline_silent_after_cancel :
    ∀ (cfg : WorkerCfg) (env : PipeEnv) (index : Nat) (fp : String) (t0 s : Nat),
      env.stopAt = some s →
      (∀ p ∈ (process_single_file cfg env index fp t0).events, p.1 ≤ s) ∧
      (s < (process_single_file cfg env index fp t0).tEnd →
        (process_single_file cfg env index fp t0).retStatus = Option.none) :=
  fun cfg env index fp t0 s h =>
    ⟨process_single_file_stamps cfg env index fp t0 h,
     process_single_file_silent cfg env index fp t0 h⟩

/-- A pipeline environment whose token is set at tick 3 (just before the
OCR call returns) over a benign network and filesystem. -/
def pipeEnvCancelW : PipeEnv :=
  ⟨some 3, .ok "bytes", ocrEnvRetryW, fsAllOk⟩

/-- A worker configuration with two inputs and identity row mapping. -/
def cfgW : WorkerCfg :=
  ⟨"images", ["a/x.png", "b/y.png"], Option.none, "out", "TXT", 5,
   initRowIndices ["a/x.png", "b/y.png"] Option.none⟩

/-- C1 witness: with the token set at tick 3, the item's only events are
the `处理中` pair stamped 2 ≤ 3, and the pipeline returns silently. -/
theorem C1_pipeline_silent_after_cancel_witness :
    (∀ p ∈ (process_single_file cfgW pipeEnvCancelW 0 "a/x.png" 0).events, p.1 ≤ 3) ∧
    (3 < (process_single_file cfgW pipeEnvCancelW 0 "a/x.png" 0).tEnd →
      (process_single_file cfgW pipeEnvCancelW 0 "a/x.png" 0).retStatus = Option.none) :=
  C1_pipeline_silent_after_cancel cfgW pipeEnvCancelW 0 "a/x.png" 0 3 rfl

/-!  Run-loop lemmas for C2, C3 and C4. -/

theorem drain_t_mono (stopAt : Option Nat) (doneTime : Nat → Nat) :
    ∀ (fuel : Nat) (pending : List Nat) (t : Nat),
      t ≤ (drain stopAt doneTime fuel pending t).2 := by
  intro fuel
  induction fuel with
  | zero => intro pending t; simp [drain]
  | succ n ih =>
    intro pending t
    unfold drain
    split
    · simp
    · split
      · simp
      · exact le_trans (Nat.le_succ t) (ih _ (t + 1))

theorem submitLoop_no_jobTerminal (env : RunEnv) (cfg : WorkerCfg) :
    ∀ (fps : List String) (i t : Nat),
      (submitLoop env cfg fps i t).1.filter isJobTerminal = [] := by
  intro fps
  induction fps with
  | nil => intro i t; simp [submitLoop]
  | cons fp rest ih =>
    intro i t
    unfold submitLoop
    split
    · simp only []
      unfold markStopped
      induction (List.range (rest.length + 1)) with
      | nil => simp
      | cons k ks ihk => simpa [isJobTerminal] using ihk
    · simp only []
      rcases hr : submitLoop env cfg rest (i + 1)
          (if rest.isEmpty then t + 1 else interDelay env i (t + 1)) with ⟨evs, sub, t3, ws⟩
      have := ih (i + 1) (if rest.isEmpty then t + 1 else interDelay env i (t + 1))
      rw [hr] at this
      simpa using this

theorem submitLoop_ws_check (env : RunEnv) (cfg : WorkerCfg) :
    ∀ (fps : List String) (i t : Nat) (evs : List Ev) (sub : List Nat) (tq : Nat),
      submitLoop env cfg fps i t = (evs, sub, tq, true) →
      checkStop env.stopAt (tq - 1) = true := by
  intro fps
  induction fps with
  | nil => intro i t evs sub tq h; simp [submitLoop] at h
  | cons fp rest ih =>
    intro i t evs sub tq h
    unfold submitLoop at h
    split at h
    · rename_i hc
      simp only [Prod.mk.injEq] at h
      obtain ⟨-, -, h3, -⟩ := h
      subst h3
      simpa using hc
    · dsimp only at h
      rcases hr : submitLoop env cfg rest (i + 1)
          (if rest.isEmpty then t + 1 else interDelay env i (t + 1)) with ⟨evs0, sub0, t3, ws0⟩
      rw [hr] at h
      simp only [Prod.mk.injEq] at h
      obtain ⟨-, -, h3, h4⟩ := h
      rw [h4] at hr
      rw [← h3]
      exact ih (i + 1) (if rest.isEmpty then t + 1 else interDelay env i (t + 1))
        evs0 sub0 t3 hr

theorem submitLoop_none (env : RunEnv) (cfg : WorkerCfg)
    (hstop : env.stopAt = Option.none) :
    ∀ (fps : List String) (i t : Nat),
      (submitLoop env cfg fps i t).1 = [] ∧
      (submitLoop env cfg fps i t).2.1 = List.range' i fps.length ∧
      (submitLoop env cfg fps i t).2.2.2 = false := by
  intro fps
  induction fps with
  | nil => intro i t; simp [submitLoop]
  | cons fp rest ih =>
    intro i t
    unfold submitLoop
    rw [if_neg (by simp [checkStop, hstop])]
    dsimp only
    rcases hr : submitLoop env cfg rest (i + 1)
        (if rest.isEmpty then t + 1 else interDelay env i (t + 1)) with ⟨evs0, sub0, t3, ws0⟩
    have h := ih (i + 1) (if rest.isEmpty then t + 1 else interDelay env i (t + 1))
    rw [hr] at h
    simp only at h
    obtain ⟨h1, h2, h3⟩ := h
    refine ⟨h1, ?_, h3⟩
    simp [List.range'_succ, h2]

/-- Without cancellation, the pipeline emits exactly one terminal status
signal and exactly one result signal, and returns a non-silent status. -/
theorem process_single_file_one_terminal (cfg : WorkerCfg) (env : PipeEnv)
    (i : Nat) (fp : String) (t0 : Nat) (h : env.stopAt = Option.none) :
    (((process_single_file cfg env i fp t0).events.map Prod.snd).filter
        isTerminalStatus).length = 1 ∧
    (((process_single_file cfg env i fp t0).events.map Prod.snd).filter
        isResultUpdate).length = 1 ∧
    (process_single_file cfg env i fp t0).retStatus.isSome = true := by
  unfold process_single_file pipeResultPhase pipeExcept
  simp only [h, checkStop, Bool.false_eq_true, if_false]
  repeat' split
  all_goals simp [isTerminalStatus, isResultUpdate]

theorem jobTerminal_not_mem {l : List Ev} (h : l.filter isJobTerminal = []) :
    Ev.stoppedSig ∉ l ∧ Ev.finishedSig ∉ l := by
  constructor <;> intro hm
  · have hx : Ev.stoppedSig ∈ l.filter isJobTerminal :=
      List.mem_filter.mpr ⟨hm, rfl⟩
    simp [h] at hx
  · have hx : Ev.finishedSig ∈ l.filter isJobTerminal :=
      List.mem_filter.mpr ⟨hm, rfl⟩
    simp [h] at hx

theorem lateEvs_no_jobTerminal (cfg : WorkerCfg) (pending : List Nat) :
    ((pending.flatMap (fun i =>
      [Ev.statusUpdate (displaySlot cfg.rowIndices i) "已终止",
       Ev.resultUpdate (displaySlot cfg.rowIndices i) "用户已终止任务"])).filter
        isJobTerminal) = [] := by
  induction pending with
  | nil => simp
  | cons a l ih => simpa [isJobTerminal] using ih

theorem itemsTerminalCount_zero (env : RunEnv) (cfg : WorkerCfg)
    (f : Nat → String) (sub : List Nat) :
    (((sub.map (fun i => (i, process_single_file cfg (env.pipeEnv i) i (f i) 0))).map
      (fun ip => (ip.2.events.filter (fun p => isJobTerminal p.2)).length)).sum) = 0 := by
  induction sub with
  | nil => rfl
  | cons a l ih =>
    simp only [List.map_cons, List.sum_cons]
    rw [process_single_file_no_jobTerminal]
    simpa using ih

/-- C2: every run of the Worker emits exactly one job-terminal signal (the
per-item pipelines emit none), and it is `stopped` precisely when some
`is_set()` read during the run observed the token (equivalently, by
monotonicity, its last read did), `finished` otherwise — including runs
aborted by a fatal orchestration error (`mkdirFail`). -/
theorem C2_exactly_one_job_terminal :
    ∀ (env : RunEnv) (cfg : WorkerCfg),
      jobTerminalCount (runWorker env cfg) = 1 ∧
      (Ev.stoppedSig ∈ (runWorker env cfg).coordEvents ↔
        (0 < (runWorker env cfg).tFinal ∧
         checkStop env.stopAt ((runWorker env cfg).tFinal - 1) = true)) ∧
      (Ev.finishedSig ∈ (runWorker env cfg).coordEvents ↔
        ¬ (0 < (runWorker env cfg).tFinal ∧
           checkStop env.stopAt ((runWorker env cfg).tFinal - 1) = true)) := by
  intro env cfg
  unfold runWorker
  by_cases hmk : env.mkdirFail = true
  · rw [if_pos hmk]
    unfold finallyStep jobTerminalCount
    by_cases hc : checkStop env.stopAt 0 = true
    · simp [hc, isJobTerminal]
    · simp [hc, isJobTerminal]
  rw [if_neg hmk]
  dsimp only
  rcases hsl : submitLoop env cfg cfg.files 0 0 with ⟨sEvs, sub, t1, ws⟩
  dsimp only
  have hsevs : sEvs.filter isJobTerminal = [] := by
    have hx := submitLoop_no_jobTerminal env cfg cfg.files 0 0
    rw [hsl] at hx; simpa using hx
  obtain ⟨hnss, hnfs⟩ := jobTerminal_not_mem hsevs
  have hitems := itemsTerminalCount_zero env cfg
    (fun i => (cfg.files.drop i).headD "") sub
  by_cases hc1 : checkStop env.stopAt t1 = true
  · rw [if_pos hc1]
    unfold finallyStep jobTerminalCount
    rw [if_pos rfl]
    dsimp only
    refine ⟨?_, ?_, ?_⟩
    · rw [List.filter_append, hsevs, hitems]
      simp [isJobTerminal]
    · simp [hc1, hnss]
    · simp [hc1, hnfs]
  rw [if_neg hc1]
  rcases hdr : drain env.stopAt env.doneTime ((sub.map env.doneTime).foldr max 0 + 2)
      sub (t1 + 1) with ⟨pending, t2⟩
  dsimp only
  by_cases hc2 : checkStop env.stopAt t2 = true
  · rw [if_pos hc2]
    unfold finallyStep jobTerminalCount
    rw [if_pos rfl]
    dsimp only
    have hlate := lateEvs_no_jobTerminal cfg pending
    obtain ⟨hnsl, hnfl⟩ := jobTerminal_not_mem hlate
    refine ⟨?_, ?_, ?_⟩
    · rw [List.filter_append, List.filter_append, hsevs, hlate, hitems]
      simp [isJobTerminal]
    · simp [hc2, hnss, hnsl]
    · simp [hc2, hnfs, hnfl]
  rw [if_neg hc2]
  rcases Bool.eq_false_or_eq_true ws with hws | hws
  · exfalso
    rw [hws] at hsl
    have hck := submitLoop_ws_check env cfg cfg.files 0 0 sEvs sub t1 hsl
    exact hc1 (checkStop_mono (Nat.sub_le t1 1) hck)
  · rw [hws]
    unfold finallyStep jobTerminalCount
    rw [if_neg (by simp)]
    by_cases hc3 : checkStop env.stopAt (t2 + 1) = true
    · rw [if_pos hc3]
      dsimp only
      refine ⟨?_, ?_, ?_⟩
      · rw [List.filter_append, hsevs, hitems]
        simp [isJobTerminal]
      · simp [hc3, hnss]
      · simp [hc3, hnfs]
    · rw [if_neg hc3]
      dsimp only
      refine ⟨?_, ?_, ?_⟩
      · rw [List.filter_append, hsevs, hitems]
        simp [isJobTerminal]
      · simp [hc3, hnss]
      · simp [hc3, hnfs]

/-- C3: when cancellation is never triggered (and the output directory is
created successfully), every one of the N items is submitted, the Worker
emits exactly the `finished` signal and no `stopped` signal, and each
item's pipeline emits exactly one terminal status with exactly one result
message and returns a non-silent status. -/
theorem C3_no_cancel_all_items :
    ∀ (env : RunEnv) (cfg : WorkerCfg),
      env.stopAt = Option.none → env.mkdirFail = false →
      (∀ i, (env.pipeEnv i).stopAt = Option.none) →
      (runWorker env cfg).submitted = List.range cfg.files.length ∧
      (runWorker env cfg).coordEvents = [Ev.finishedSig] ∧
      (runWorker env cfg).items.map Prod.fst = List.range cfg.files.length ∧
      (∀ ip ∈ (runWorker env cfg).items,
        ((ip.2.events.map Prod.snd).filter isTerminalStatus).length = 1 ∧
        ((ip.2.events.map Prod.snd).filter isResultUpdate).length = 1 ∧
        ip.2.retStatus.isSome = true) := by
  intro env cfg hstop hmk hpipe
  unfold runWorker
  rw [if_neg (by simp [hmk])]
  dsimp only
  rcases hsl : submitLoop env cfg cfg.files 0 0 with ⟨sEvs, sub, t1, ws⟩
  dsimp only
  have hn := submitLoop_none env cfg hstop cfg.files 0 0
  rw [hsl] at hn
  simp only at hn
  obtain ⟨h1, h2, h3⟩ := hn
  rw [if_neg (by simp [checkStop, hstop])]
  rcases hdr : drain env.stopAt env.doneTime ((sub.map env.doneTime).foldr max 0 + 2)
      sub (t1 + 1) with ⟨pending, t2⟩
  dsimp only
  rw [if_neg (by simp [checkStop, hstop])]
  rw [h3]
  unfold finallyStep
  rw [if_neg (by simp)]
  rw [if_neg (by simp [checkStop, hstop])]
  dsimp only
  subst h1
  have hrange : sub = List.range cfg.files.length := by
    rw [h2]; exact (List.range_eq_range' _).symm
  refine ⟨by rw [hrange], by simp, ?_, ?_⟩
  · rw [List.map_map]
    simpa [Function.comp_def] using hrange
  · intro ip hip
    simp only [List.mem_map] at hip
    obtain ⟨i, hi, rfl⟩ := hip
    exact process_single_file_one_terminal cfg (env.pipeEnv i) i _ 0 (hpipe i)

/-- A no-cancellation run environment over the retrying network and the
benign filesystem. -/
def runEnvNoCancelW : RunEnv :=
  ⟨Option.none, fun _ => 5, false, fun _ => ⟨Option.none, .ok "b", ocrEnvRetryW, fsAllOk⟩⟩

/-- C3 witness: a concrete 2-input run with no cancellation. -/
theorem C3_no_cancel_all_items_witness :
    (runWorker runEnvNoCancelW cfgW).submitted = List.range cfgW.files.length ∧
    (runWorker runEnvNoCancelW cfgW).coordEvents = [Ev.finishedSig] ∧
    (runWorker runEnvNoCancelW cfgW).items.map Prod.fst = List.range cfgW.files.length ∧
    (∀ ip ∈ (runWorker runEnvNoCancelW cfgW).items,
      ((ip.2.events.map Prod.snd).filter isTerminalStatus).length = 1 ∧
      ((ip.2.events.map Prod.snd).filter isResultUpdate).length = 1 ∧
      ip.2.retStatus.isSome = true) :=
  C3_no_cancel_all_items runEnvNoCancelW cfgW rfl rfl (fun _ => rfl)

/-- C4: when the cancellation token is already set before the first
submission is attempted (its very first read returns true) and the output
directory is created successfully, no item is ever submitted, no pipeline
runs (hence zero OCR Client calls), every one of the N items receives the
`已终止`/`用户已终止任务` markers, and the Worker emits the `stopped`
signal. -/
theorem C4_cancel_before_submission :
    ∀ (env : RunEnv) (cfg : WorkerCfg),
      env.stopAt = some 0 → env.mkdirFail = false →
      (runWorker env cfg).submitted = [] ∧
      (runWorker env cfg).items = [] ∧
      (runWorker env cfg).coordEvents =
        ((List.range cfg.files.length).flatMap (fun j =>
          [Ev.statusUpdate (displaySlot cfg.rowIndices j) "已终止",
           Ev.resultUpdate (displaySlot cfg.rowIndices j) "用户已终止任务"])) ++
        [Ev.stoppedSig] := by
  intro env cfg hstop hmk
  unfold runWorker
  rw [if_neg (by simp [hmk])]
  dsimp only
  rcases hf : cfg.files with _ | ⟨f, rest⟩
  · unfold submitLoop
    dsimp only
    rw [if_pos (by simp [checkStop, hstop])]
    unfold finallyStep
    rw [if_pos rfl]
    dsimp only
    exact ⟨rfl, rfl, rfl⟩
  · unfold submitLoop
    rw [if_pos (by simp [checkStop, hstop])]
    dsimp only
    rw [if_pos (by simp [checkStop, hstop])]
    unfold finallyStep
    rw [if_pos rfl]
    dsimp only
    refine ⟨rfl, rfl, ?_⟩
    unfold markStopped
    simp

/-- A run environment whose token is set before the first read. -/
def runEnvCancelW : RunEnv :=
  ⟨some 0, fun _ => 0, false, fun _ => ⟨some 0, .ok "b", ocrEnvRetryW, fsAllOk⟩⟩

/-- C4 witness: a concrete 2-input run cancelled before any submission. -/
theorem C4_cancel_before_submission_witness :
    (runWorker runEnvCancelW cfgW).submitted = [] ∧
    (runWorker runEnvCancelW cfgW).items = [] ∧
    (runWorker runEnvCancelW cfgW).coordEvents =
      ((List.range cfgW.files.length).flatMap (fun j =>
        [Ev.statusUpdate (displaySlot cfgW.rowIndices j) "已终止",
         Ev.resultUpdate (displaySlot cfgW.rowIndices j) "用户已终止任务"])) ++
      [Ev.stoppedSig] :=
  C4_cancel_before_submission runEnvCancelW cfgW rfl rfl
